import Mathlib

/-!
Verification of the exercise-tracking / surveillance core of the
OpenCV-major-project repository.

Shallow embedding conventions:
* Python floats are modelled as `ℚ` (all thresholds and inputs in the claims
  are exact decimals, and every comparison made by the code is order-based,
  so rational arithmetic is faithful on the inputs considered).
* `time.time()` results are passed in explicitly as a `now : ℚ` argument at
  each call that reads the clock.
* Python `None` becomes `Option.none`; fallible computations return `Option`.
* Python `dict`s (which preserve insertion order) become association lists;
  Python `deque(maxlen := n)` becomes a list truncated to its last `n`
  elements on append.
* `SquatTracker.update` receives the already-averaged knee angle
  (`current_angle` in the source, the output of `calculate_knee_angle` /
  `average_angles`): the trigonometric angle extraction from raw joints is
  the external geometry boundary, and every claim treated here speaks about
  the angle stream entering the state machine.
-/

set_option maxRecDepth 100000

attribute [local semireducible] Rat.add Rat.mul Rat.inv Rat.sub Rat.ofScientific

namespace OpenCVProject

/-- Append to a deque with `maxlen = cap`: keep only the last `cap` items
(`collections.deque(maxlen=cap)` semantics). -/
def appendBounded (cap : Nat) (xs : List α) (x : α) : List α :=
  let ys := xs ++ [x]
  ys.drop (ys.length - cap)

/-- Enumeration `SquatState` from `modules/squat_tracker.py`. -/
inductive SquatState where
  | unknown
  | standing
  | descending
  | bottom
  | ascending
  deriving DecidableEq, Repr

/-- Enumeration `SquatDepthQuality` from `modules/squat_tracker.py`. -/
inductive SquatDepthQuality where
  | good
  | shallow
  | tooDeep
  | unknown
  deriving DecidableEq, Repr

/-- Configuration parameters read in `SquatTracker.__init__`, with the
source defaults. -/
structure SquatConfig where
  uprightThreshold : ℚ := 160
  squatThreshold : ℚ := 100
  goodDepthMin : ℚ := 90
  goodDepthMax : ℚ := 110
  smoothingWindow : Nat := 5
  minStateDuration : Nat := 3
  deriving DecidableEq, Repr

/-- Mutable state of one `SquatTracker` instance (fields of
`SquatTracker.__init__`).  `kneeAngles` stores the oldest sample first, the
latest sample last, truncated to the last `smoothingWindow` entries. -/
structure SquatTracker where
  personId : Nat
  config : SquatConfig
  currentState : SquatState
  previousState : SquatState
  stateFrameCount : Nat
  stateHistory : List (SquatState × ℚ)
  kneeAngles : List ℚ
  smoothedAngle : Option ℚ
  minAngleInRep : Option ℚ
  repCount : Nat
  lastRepTime : Option ℚ
  repStartTime : Option ℚ
  currentDepthQuality : SquatDepthQuality
  formFeedback : List String
  totalSessionTime : ℚ
  averageRepTime : ℚ
  bestDepthAngle : Option ℚ
  repAngles : List ℚ
  deriving DecidableEq, Repr

/-- Fresh tracker, as built by `SquatTracker.__init__`. -/
def SquatTracker.init (personId : Nat) (config : SquatConfig) : SquatTracker where
  personId := personId
  config := config
  currentState := .unknown
  previousState := .unknown
  stateFrameCount := 0
  stateHistory := []
  kneeAngles := []
  smoothedAngle := none
  minAngleInRep := none
  repCount := 0
  lastRepTime := none
  repStartTime := none
  currentDepthQuality := .unknown
  formFeedback := []
  totalSessionTime := 0
  averageRepTime := 0
  bestDepthAngle := none
  repAngles := []

/-- Last two elements of a list, oldest of the two first
(`list(deque)[-2:]` for a list of length ≥ 2). -/
def lastTwo : List ℚ → Option (ℚ × ℚ)
  | [] => none
  | [_] => none
  | a :: b :: rest =>
    match rest with
    | [] => some (a, b)
    | _ => lastTwo (b :: rest)

/-- `SquatTracker._determine_state`: classify the smoothed angle; in the
intermediate band, disambiguate from the previous state and the trend of the
last two raw samples. -/
def SquatTracker.determineState (t : SquatTracker) (angle : ℚ) : SquatState :=
  if angle > t.config.uprightThreshold then .standing
  else if angle < t.config.squatThreshold then .bottom
  else
    match t.currentState with
    | .standing => .descending
    | .descending | .bottom =>
      match lastTwo t.kneeAngles with
      | some (a, b) => if b < a then .descending else .ascending
      | none => .descending
    | .ascending => .ascending
    | .unknown => .descending

/-- Payload of the `on_state_changed` callback:
`(person_id, new_state, previous_state)`. -/
structure StateChangedEvent where
  personId : Nat
  newState : SquatState
  oldState : SquatState
  deriving DecidableEq, Repr

/-- Payload of the `on_rep_completed` callback:
`(person_id, rep_count, rep_angles[-1])`. -/
structure RepCompletedEvent where
  personId : Nat
  repCount : Nat
  minAngle : ℚ
  deriving DecidableEq, Repr

/-- `SquatTracker._update_state_machine`.  Returns the updated tracker and
the `on_state_changed` payload when a state change is committed. -/
def SquatTracker.updateStateMachine (t : SquatTracker) (now : ℚ) :
    SquatTracker × Option StateChangedEvent :=
  match t.smoothedAngle with
  | none => (t, none)
  | some a =>
    let newState := t.determineState a
    if newState = t.currentState then
      ({ t with stateFrameCount := t.stateFrameCount + 1 }, none)
    else if t.stateFrameCount ≥ t.config.minStateDuration then
      ({ t with
          previousState := t.currentState
          currentState := newState
          stateFrameCount := 1
          stateHistory := appendBounded 10 t.stateHistory (newState, now) },
       some ⟨t.personId, newState, t.currentState⟩)
    else
      ({ t with stateFrameCount := t.stateFrameCount + 1 }, none)

/-- `SquatTracker._assess_squat_quality`: while at the bottom, update the
in-rep minimum angle and the depth-quality label. -/
def SquatTracker.assessSquatQuality (t : SquatTracker) : SquatTracker :=
  match t.smoothedAngle with
  | some a =>
    if t.currentState = .bottom then
      let newMin : ℚ :=
        match t.minAngleInRep with
        | none => a
        | some m => if a < m then a else m
      let quality : SquatDepthQuality :=
        if t.config.goodDepthMin ≤ a ∧ a ≤ t.config.goodDepthMax then .good
        else if a > t.config.goodDepthMax then .shallow
        else .tooDeep
      { t with minAngleInRep := some newMin, currentDepthQuality := quality }
    else t
  | none => t

/-- `SquatTracker._check_rep_completion`.  Returns the updated tracker, the
`rep_completed` flag, and the `on_rep_completed` payload when a rep
completes. -/
def SquatTracker.checkRepCompletion (t : SquatTracker) (now : ℚ) :
    SquatTracker × Bool × Option RepCompletedEvent :=
  match t.minAngleInRep with
  | some m =>
    if t.previousState = .ascending ∧ t.currentState = .standing then
      let newBest : Option ℚ :=
        match t.bestDepthAngle with
        | none => some m
        | some b => if m < b then some m else some b
      ({ t with
          repCount := t.repCount + 1
          lastRepTime := some now
          repAngles := t.repAngles ++ [m]
          bestDepthAngle := newBest
          minAngleInRep := none
          repStartTime := none },
       true, some ⟨t.personId, t.repCount + 1, m⟩)
    else if t.previousState = .standing ∧ t.currentState = .descending ∧
        t.repStartTime = none then
      ({ t with repStartTime := some now }, false, none)
    else (t, false, none)
  | none =>
    if t.previousState = .standing ∧ t.currentState = .descending ∧
        t.repStartTime = none then
      ({ t with repStartTime := some now }, false, none)
    else (t, false, none)

/-- Largest element of a rational list (0 for an empty list). -/
def listMax (xs : List ℚ) : ℚ := xs.foldl max (xs.headD 0)

/-- Smallest element of a rational list (0 for an empty list). -/
def listMin (xs : List ℚ) : ℚ := xs.foldl min (xs.headD 0)

/-- Python truthiness of an optional float (`None` and `0.0` are falsy). -/
def pyTruthy : Option ℚ → Bool
  | none => false
  | some x => x ≠ 0

/-- `SquatTracker._update_performance_metrics`: rebuild the form feedback and
refresh the (degenerate, always-zero) average rep time. -/
def SquatTracker.updatePerformanceMetrics (t : SquatTracker) : SquatTracker :=
  let avg : ℚ :=
    if t.repAngles.length > 1 ∧ pyTruthy t.lastRepTime then
      t.totalSessionTime / t.repAngles.length
    else t.averageRepTime
  let depthFeedback : List String :=
    if t.currentState = .bottom then
      match t.currentDepthQuality with
      | .shallow => ["Go deeper"]
      | .tooDeep => ["Not too deep"]
      | .good => ["Good depth!"]
      | .unknown => []
    else []
  let steadyFeedback : List String :=
    if t.kneeAngles.length ≥ t.config.smoothingWindow ∧
        listMax t.kneeAngles - listMin t.kneeAngles > 20 then
      ["Keep steady"]
    else []
  { t with averageRepTime := avg, formFeedback := depthFeedback ++ steadyFeedback }

/-- Result dictionary returned by `SquatTracker.update`, extended with the
callback payloads the call would deliver (`on_state_changed`,
`on_rep_completed` fire exactly when these fields are `some`). -/
structure UpdateResult where
  personId : Nat
  currentState : SquatState
  smoothedAngle : Option ℚ
  repCount : Nat
  depthQuality : SquatDepthQuality
  repCompleted : Bool
  minAngleInRep : Option ℚ
  stateChanged : Option StateChangedEvent
  repEvent : Option RepCompletedEvent
  deriving DecidableEq, Repr

/-- Smoothing stage at the top of `SquatTracker.update`: append a valid
angle reading to the bounded window and recompute the arithmetic mean; a
frame without a valid reading leaves the window and the smoothed angle
untouched. -/
def SquatTracker.appendAngle (t : SquatTracker) (currentAngle : Option ℚ) :
    SquatTracker :=
  match currentAngle with
  | some a =>
    let ks := appendBounded t.config.smoothingWindow t.kneeAngles a
    { t with kneeAngles := ks, smoothedAngle := some (ks.sum / ks.length) }
  | none => t

/-- `SquatTracker.update`, taking the already-averaged knee angle for the
frame (`current_angle` in the source; `none` when no valid angle could be
computed this frame). -/
def SquatTracker.update (t : SquatTracker) (currentAngle : Option ℚ) (now : ℚ) :
    SquatTracker × UpdateResult :=
  let t1 := t.appendAngle currentAngle
  let sm := t1.updateStateMachine now
  let t2 := sm.1
  let t3 := t2.assessSquatQuality
  let cr := t3.checkRepCompletion now
  let t4 := cr.1
  let t5 := t4.updatePerformanceMetrics
  (t5,
   { personId := t5.personId
     currentState := t5.currentState
     smoothedAngle := t5.smoothedAngle
     repCount := t5.repCount
     depthQuality := t5.currentDepthQuality
     repCompleted := cr.2.1
     minAngleInRep := t5.minAngleInRep
     stateChanged := sm.2
     repEvent := cr.2.2 })

/-- Drive a fresh tracker through a list of `(current_angle, now)` frames. -/
def runTracker (personId : Nat) (config : SquatConfig)
    (inputs : List (Option ℚ × ℚ)) : SquatTracker :=
  inputs.foldl (fun t i => (t.update i.1 i.2).1) (SquatTracker.init personId config)

/-! Projection lemmas: which tracker fields each phase of `update` can
touch. -/

theorem appendAngle_previousState (t : SquatTracker) (a : Option ℚ) :
    (t.appendAngle a).previousState = t.previousState := by
  cases a <;> rfl

theorem appendAngle_currentState (t : SquatTracker) (a : Option ℚ) :
    (t.appendAngle a).currentState = t.currentState := by
  cases a <;> rfl

theorem appendAngle_minAngleInRep (t : SquatTracker) (a : Option ℚ) :
    (t.appendAngle a).minAngleInRep = t.minAngleInRep := by
  cases a <;> rfl

theorem appendAngle_repCount (t : SquatTracker) (a : Option ℚ) :
    (t.appendAngle a).repCount = t.repCount := by
  cases a <;> rfl

theorem appendAngle_repAngles (t : SquatTracker) (a : Option ℚ) :
    (t.appendAngle a).repAngles = t.repAngles := by
  cases a <;> rfl

theorem appendAngle_stateFrameCount (t : SquatTracker) (a : Option ℚ) :
    (t.appendAngle a).stateFrameCount = t.stateFrameCount := by
  cases a <;> rfl

theorem appendAngle_personId (t : SquatTracker) (a : Option ℚ) :
    (t.appendAngle a).personId = t.personId := by
  cases a <;> rfl

theorem appendAngle_config (t : SquatTracker) (a : Option ℚ) :
    (t.appendAngle a).config = t.config := by
  cases a <;> rfl

theorem updateStateMachine_minAngleInRep (t : SquatTracker) (now : ℚ) :
    (t.updateStateMachine now).1.minAngleInRep = t.minAngleInRep := by
  unfold SquatTracker.updateStateMachine
  cases t.smoothedAngle
  · rfl
  · dsimp only
    split
    · rfl
    · split <;> rfl

theorem updateStateMachine_repCount (t : SquatTracker) (now : ℚ) :
    (t.updateStateMachine now).1.repCount = t.repCount := by
  unfold SquatTracker.updateStateMachine
  cases t.smoothedAngle
  · rfl
  · dsimp only
    split
    · rfl
    · split <;> rfl

theorem updateStateMachine_repAngles (t : SquatTracker) (now : ℚ) :
    (t.updateStateMachine now).1.repAngles = t.repAngles := by
  unfold SquatTracker.updateStateMachine
  cases t.smoothedAngle
  · rfl
  · dsimp only
    split
    · rfl
    · split <;> rfl

theorem updateStateMachine_personId (t : SquatTracker) (now : ℚ) :
    (t.updateStateMachine now).1.personId = t.personId := by
  unfold SquatTracker.updateStateMachine
  cases t.smoothedAngle
  · rfl
  · dsimp only
    split
    · rfl
    · split <;> rfl

theorem updateStateMachine_config (t : SquatTracker) (now : ℚ) :
    (t.updateStateMachine now).1.config = t.config := by
  unfold SquatTracker.updateStateMachine
  cases t.smoothedAngle
  · rfl
  · dsimp only
    split
    · rfl
    · split <;> rfl

/-- The state machine either commits no change (states untouched) or commits
exactly when the current state has already persisted for at least
`min_state_duration` frames, recording the change in the callback payload. -/
theorem updateStateMachine_cases (t : SquatTracker) (now : ℚ) :
    ((t.updateStateMachine now).2 = none ∧
      (t.updateStateMachine now).1.previousState = t.previousState ∧
      (t.updateStateMachine now).1.currentState = t.currentState ∧
      (t.updateStateMachine now).1.stateFrameCount = t.stateFrameCount + 1 ∨
      (t.updateStateMachine now).1 = t ∧ (t.updateStateMachine now).2 = none) ∨
    (∃ ns, (t.updateStateMachine now).2 = some ⟨t.personId, ns, t.currentState⟩ ∧
      (t.updateStateMachine now).1.previousState = t.currentState ∧
      (t.updateStateMachine now).1.currentState = ns ∧
      ns ≠ t.currentState ∧
      t.config.minStateDuration ≤ t.stateFrameCount ∧
      (t.updateStateMachine now).1.stateFrameCount = 1) := by
  unfold SquatTracker.updateStateMachine
  cases t.smoothedAngle
  · left; right; exact ⟨rfl, rfl⟩
  · dsimp only
    split
    · left; left; exact ⟨rfl, rfl, rfl, rfl⟩
    · rename_i hne
      split
      · rename_i hge
        right; exact ⟨_, rfl, rfl, rfl, hne, hge, rfl⟩
      · left; left; exact ⟨rfl, rfl, rfl, rfl⟩

theorem assessSquatQuality_previousState (t : SquatTracker) :
    t.assessSquatQuality.previousState = t.previousState := by
  unfold SquatTracker.assessSquatQuality
  cases t.smoothedAngle
  · rfl
  · dsimp only
    split <;> rfl

theorem assessSquatQuality_currentState (t : SquatTracker) :
    t.assessSquatQuality.currentState = t.currentState := by
  unfold SquatTracker.assessSquatQuality
  cases t.smoothedAngle
  · rfl
  · dsimp only
    split <;> rfl

theorem assessSquatQuality_repCount (t : SquatTracker) :
    t.assessSquatQuality.repCount = t.repCount := by
  unfold SquatTracker.assessSquatQuality
  cases t.smoothedAngle
  · rfl
  · dsimp only
    split <;> rfl

theorem assessSquatQuality_repAngles (t : SquatTracker) :
    t.assessSquatQuality.repAngles = t.repAngles := by
  unfold SquatTracker.assessSquatQuality
  cases t.smoothedAngle
  · rfl
  · dsimp only
    split <;> rfl

theorem assessSquatQuality_stateFrameCount (t : SquatTracker) :
    t.assessSquatQuality.stateFrameCount = t.stateFrameCount := by
  unfold SquatTracker.assessSquatQuality
  cases t.smoothedAngle
  · rfl
  · dsimp only
    split <;> rfl

theorem assessSquatQuality_personId (t : SquatTracker) :
    t.assessSquatQuality.personId = t.personId := by
  unfold SquatTracker.assessSquatQuality
  cases t.smoothedAngle
  · rfl
  · dsimp only
    split <;> rfl

theorem assessSquatQuality_minAngleInRep_of_ne_bottom (t : SquatTracker)
    (h : t.currentState ≠ .bottom) :
    t.assessSquatQuality.minAngleInRep = t.minAngleInRep := by
  unfold SquatTracker.assessSquatQuality
  cases t.smoothedAngle
  · rfl
  · dsimp only
    rw [if_neg h]

theorem checkRepCompletion_previousState (t : SquatTracker) (now : ℚ) :
    (t.checkRepCompletion now).1.previousState = t.previousState := by
  unfold SquatTracker.checkRepCompletion
  cases t.minAngleInRep
  · dsimp only
    split <;> rfl
  · dsimp only
    split
    · rfl
    · split <;> rfl

theorem checkRepCompletion_currentState (t : SquatTracker) (now : ℚ) :
    (t.checkRepCompletion now).1.currentState = t.currentState := by
  unfold SquatTracker.checkRepCompletion
  cases t.minAngleInRep
  · dsimp only
    split <;> rfl
  · dsimp only
    split
    · rfl
    · split <;> rfl

theorem checkRepCompletion_stateFrameCount (t : SquatTracker) (now : ℚ) :
    (t.checkRepCompletion now).1.stateFrameCount = t.stateFrameCount := by
  unfold SquatTracker.checkRepCompletion
  cases t.minAngleInRep
  · dsimp only
    split <;> rfl
  · dsimp only
    split
    · rfl
    · split <;> rfl

theorem checkRepCompletion_config (t : SquatTracker) (now : ℚ) :
    (t.checkRepCompletion now).1.config = t.config := by
  unfold SquatTracker.checkRepCompletion
  cases t.minAngleInRep
  · dsimp only
    split <;> rfl
  · dsimp only
    split
    · rfl
    · split <;> rfl

/-- When a rep fires: `previous == ASCENDING`, `current == STANDING` and a
minimum angle is recorded. -/
theorem checkRepCompletion_fire (t : SquatTracker) (now : ℚ) (m : ℚ)
    (h1 : t.previousState = .ascending) (h2 : t.currentState = .standing)
    (h3 : t.minAngleInRep = some m) :
    (t.checkRepCompletion now).1.repCount = t.repCount + 1 ∧
    (t.checkRepCompletion now).1.repAngles = t.repAngles ++ [m] ∧
    (t.checkRepCompletion now).1.minAngleInRep = none ∧
    (t.checkRepCompletion now).2.1 = true ∧
    (t.checkRepCompletion now).2.2 = some ⟨t.personId, t.repCount + 1, m⟩ := by
  unfold SquatTracker.checkRepCompletion
  rw [h3]
  dsimp only
  rw [if_pos ⟨h1, h2⟩]
  exact ⟨rfl, rfl, rfl, rfl, rfl⟩

/-- When the completion condition does not hold, `_check_rep_completion`
leaves the rep count, rep history and in-rep minimum untouched, and neither
the flag nor the callback fires. -/
theorem checkRepCompletion_nofire (t : SquatTracker) (now : ℚ)
    (h : ¬(t.previousState = .ascending ∧ t.currentState = .standing ∧
      t.minAngleInRep.isSome)) :
    (t.checkRepCompletion now).1.repCount = t.repCount ∧
    (t.checkRepCompletion now).1.repAngles = t.repAngles ∧
    (t.checkRepCompletion now).1.minAngleInRep = t.minAngleInRep ∧
    (t.checkRepCompletion now).2.1 = false ∧
    (t.checkRepCompletion now).2.2 = none := by
  unfold SquatTracker.checkRepCompletion
  cases hm : t.minAngleInRep
  · dsimp only
    split <;> exact ⟨rfl, rfl, by first | rfl | exact hm, rfl, rfl⟩
  · dsimp only
    rw [if_neg (fun hc => h ⟨hc.1, hc.2, by rw [hm]; rfl⟩)]
    split <;> exact ⟨rfl, rfl, by first | rfl | exact hm, rfl, rfl⟩

theorem updatePerformanceMetrics_previousState (t : SquatTracker) :
    t.updatePerformanceMetrics.previousState = t.previousState := rfl

theorem updatePerformanceMetrics_currentState (t : SquatTracker) :
    t.updatePerformanceMetrics.currentState = t.currentState := rfl

theorem updatePerformanceMetrics_minAngleInRep (t : SquatTracker) :
    t.updatePerformanceMetrics.minAngleInRep = t.minAngleInRep := rfl

theorem updatePerformanceMetrics_repCount (t : SquatTracker) :
    t.updatePerformanceMetrics.repCount = t.repCount := rfl

theorem updatePerformanceMetrics_repAngles (t : SquatTracker) :
    t.updatePerformanceMetrics.repAngles = t.repAngles := rfl

theorem updatePerformanceMetrics_stateFrameCount (t : SquatTracker) :
    t.updatePerformanceMetrics.stateFrameCount = t.stateFrameCount := rfl

theorem updatePerformanceMetrics_personId (t : SquatTracker) :
    t.updatePerformanceMetrics.personId = t.personId := rfl

theorem updatePerformanceMetrics_config (t : SquatTracker) :
    t.updatePerformanceMetrics.config = t.config := rfl

/-- Decomposition of `SquatTracker.update` into its four phases. -/
theorem update_decomp (t : SquatTracker) (a : Option ℚ) (now : ℚ) :
    (t.update a now).1 =
      ((((t.appendAngle a).updateStateMachine now).1.assessSquatQuality).checkRepCompletion
        now).1.updatePerformanceMetrics ∧
    (t.update a now).2.stateChanged = ((t.appendAngle a).updateStateMachine now).2 ∧
    (t.update a now).2.repCompleted =
      ((((t.appendAngle a).updateStateMachine now).1.assessSquatQuality).checkRepCompletion
        now).2.1 ∧
    (t.update a now).2.repEvent =
      ((((t.appendAngle a).updateStateMachine now).1.assessSquatQuality).checkRepCompletion
        now).2.2 :=
  ⟨rfl, rfl, rfl, rfl⟩

/-- Between calls, a tracker can never rest in the configuration
"previous ASCENDING, current STANDING, minimum-in-rep recorded": the call
that reaches it immediately counts the rep and clears the minimum. -/
def RepInv (t : SquatTracker) : Prop :=
  ¬(t.previousState = .ascending ∧ t.currentState = .standing ∧
    t.minAngleInRep.isSome)

/-- Every update call re-establishes `RepInv`, whatever the starting state. -/
theorem repInv_update (t : SquatTracker) (a : Option ℚ) (now : ℚ) :
    RepInv (t.update a now).1 := by
  obtain ⟨h1, _, _, _⟩ := update_decomp t a now
  rw [RepInv, h1]
  set t3 := (((t.appendAngle a).updateStateMachine now).1.assessSquatQuality) with ht3
  rw [updatePerformanceMetrics_previousState, updatePerformanceMetrics_currentState,
    updatePerformanceMetrics_minAngleInRep]
  by_cases hc : t3.previousState = .ascending ∧ t3.currentState = .standing ∧
      t3.minAngleInRep.isSome
  · obtain ⟨hm, rest⟩ : ∃ m, t3.minAngleInRep = some m := by
      cases hmm : t3.minAngleInRep
      · rw [hmm] at hc; simp at hc
      · exact ⟨_, rfl⟩
    obtain ⟨_, _, hmin, _, _⟩ := checkRepCompletion_fire t3 now hm hc.1 hc.2.1 rest
    intro hcon
    rw [hmin] at hcon
    simp at hcon
  · obtain ⟨_, _, hmin, _, _⟩ := checkRepCompletion_nofire t3 now hc
    rw [checkRepCompletion_previousState, checkRepCompletion_currentState, hmin]
    exact hc

/-- Folding update steps preserves `RepInv`. -/
theorem repInv_foldl (inputs : List (Option ℚ × ℚ)) :
    ∀ t : SquatTracker, RepInv t →
      RepInv (inputs.foldl (fun t i => (t.update i.1 i.2).1) t) := by
  induction inputs with
  | nil => exact fun t h => h
  | cons i rest ih =>
    intro t _
    rw [List.foldl_cons]
    exact ih _ (repInv_update t i.1 i.2)

/-- `RepInv` is carried along every run of the tracker. -/
theorem repInv_run (pid : Nat) (cfg : SquatConfig) (inputs : List (Option ℚ × ℚ)) :
    RepInv (runTracker pid cfg inputs) := by
  have h0 : RepInv (SquatTracker.init pid cfg) := by
    simp [RepInv, SquatTracker.init]
  exact repInv_foldl inputs _ h0

/-- Characterization of rep counting for a single `update` call on a tracker
satisfying `RepInv`: the rep count increments by exactly 1 precisely when this
call commits an ASCENDING → STANDING transition with a minimum-in-rep angle
recorded; on that call the minimum is appended to the history, the in-rep
minimum is cleared and the callback payload carries
`(person id, new count, minimum angle)`; otherwise the count is unchanged. -/
theorem update_rep_spec (t : SquatTracker) (hInv : RepInv t) (a : Option ℚ)
    (now : ℚ) :
    ((t.update a now).1.repCount = t.repCount + 1 ↔
      (∃ m, t.minAngleInRep = some m ∧
        (t.update a now).2.stateChanged =
          some ⟨t.personId, SquatState.standing, SquatState.ascending⟩)) ∧
    (∀ m, t.minAngleInRep = some m →
      (t.update a now).2.stateChanged =
        some ⟨t.personId, SquatState.standing, SquatState.ascending⟩ →
      (t.update a now).1.repAngles = t.repAngles ++ [m] ∧
      (t.update a now).1.minAngleInRep = none ∧
      (t.update a now).2.repCompleted = true ∧
      (t.update a now).2.repEvent = some ⟨t.personId, t.repCount + 1, m⟩) ∧
    ((¬∃ m, t.minAngleInRep = some m ∧
        (t.update a now).2.stateChanged =
          some ⟨t.personId, SquatState.standing, SquatState.ascending⟩) →
      (t.update a now).1.repCount = t.repCount ∧
      (t.update a now).2.repCompleted = false ∧
      (t.update a now).2.repEvent = none) := by
  obtain ⟨hd1, hd2, hd3, hd4⟩ := update_decomp t a now
  set t1 := t.appendAngle a with ht1
  set t2 := (t1.updateStateMachine now).1 with ht2
  set t3 := t2.assessSquatQuality with ht3
  have h1prev : t1.previousState = t.previousState := appendAngle_previousState t a
  have h1cur : t1.currentState = t.currentState := appendAngle_currentState t a
  have h1min : t1.minAngleInRep = t.minAngleInRep := appendAngle_minAngleInRep t a
  have h1rc : t1.repCount = t.repCount := appendAngle_repCount t a
  have h1ra : t1.repAngles = t.repAngles := appendAngle_repAngles t a
  have h1pid : t1.personId = t.personId := appendAngle_personId t a
  have h2min : t2.minAngleInRep = t.minAngleInRep := by
    rw [ht2, updateStateMachine_minAngleInRep, h1min]
  have h2rc : t2.repCount = t.repCount := by
    rw [ht2, updateStateMachine_repCount, h1rc]
  have h2ra : t2.repAngles = t.repAngles := by
    rw [ht2, updateStateMachine_repAngles, h1ra]
  have h2pid : t2.personId = t.personId := by
    rw [ht2, updateStateMachine_personId, h1pid]
  have h3prev : t3.previousState = t2.previousState :=
    assessSquatQuality_previousState t2
  have h3cur : t3.currentState = t2.currentState :=
    assessSquatQuality_currentState t2
  have h3rc : t3.repCount = t.repCount := by
    rw [ht3, assessSquatQuality_repCount, h2rc]
  have h3ra : t3.repAngles = t.repAngles := by
    rw [ht3, assessSquatQuality_repAngles, h2ra]
  have h3pid : t3.personId = t.personId := by
    rw [ht3, assessSquatQuality_personId, h2pid]
  have hfin_rc : (t.update a now).1.repCount = (t3.checkRepCompletion now).1.repCount := by
    rw [hd1, updatePerformanceMetrics_repCount]
  have hfin_ra : (t.update a now).1.repAngles = (t3.checkRepCompletion now).1.repAngles := by
    rw [hd1, updatePerformanceMetrics_repAngles]
  have hfin_min : (t.update a now).1.minAngleInRep =
      (t3.checkRepCompletion now).1.minAngleInRep := by
    rw [hd1, updatePerformanceMetrics_minAngleInRep]
  rcases updateStateMachine_cases t1 now with hA | hB
  · -- no state change committed on this call
    have hev : (t.update a now).2.stateChanged = none := by
      rw [hd2]
      rcases hA with ⟨h, _⟩ | ⟨_, h⟩ <;> exact h
    have hprev2 : t2.previousState = t.previousState := by
      rcases hA with ⟨_, h, _, _⟩ | ⟨heq, _⟩
      · rw [h, h1prev]
      · rw [ht2, heq, h1prev]
    have hcur2 : t2.currentState = t.currentState := by
      rcases hA with ⟨_, _, h, _⟩ | ⟨heq, _⟩
      · rw [h, h1cur]
      · rw [ht2, heq, h1cur]
    have hnofire : ¬(t3.previousState = .ascending ∧ t3.currentState = .standing ∧
        t3.minAngleInRep.isSome) := by
      rintro ⟨ha, hb, hc⟩
      have hcurT : t.currentState = .standing := by rw [← hcur2, ← h3cur, hb]
      have hprevT : t.previousState = .ascending := by rw [← hprev2, ← h3prev, ha]
      have h3min : t3.minAngleInRep = t.minAngleInRep := by
        rw [ht3, assessSquatQuality_minAngleInRep_of_ne_bottom t2 ?_, h2min]
        rw [hcur2, hcurT]
        exact fun hcon => by cases hcon
      exact hInv ⟨hprevT, hcurT, by rw [← h3min]; exact hc⟩
    obtain ⟨hc1, _, _, hc4, hc5⟩ := checkRepCompletion_nofire t3 now hnofire
    refine ⟨⟨fun h => ?_, ?_⟩, ?_, fun _ => ⟨?_, ?_, ?_⟩⟩
    · rw [hfin_rc, hc1, h3rc] at h
      omega
    · rintro ⟨m, _, hcs⟩
      rw [hev] at hcs
      cases hcs
    · intro m _ hcs
      rw [hev] at hcs
      cases hcs
    · rw [hfin_rc, hc1, h3rc]
    · rw [hd3, hc4]
    · rw [hd4, hc5]
  · -- a state change is committed on this call
    obtain ⟨ns, hev0, hprevC, hcurC, _, _, _⟩ := hB
    have hev : (t.update a now).2.stateChanged =
        some ⟨t.personId, ns, t.currentState⟩ := by
      rw [hd2, hev0, h1pid, h1cur]
    have hprev2 : t2.previousState = t.currentState := by rw [hprevC, h1cur]
    by_cases hBB : ns = SquatState.standing ∧ t.currentState = SquatState.ascending
    · obtain ⟨hns, htc⟩ := hBB
      have hevT : (t.update a now).2.stateChanged =
          some ⟨t.personId, SquatState.standing, SquatState.ascending⟩ := by
        rw [hev, hns, htc]
      have h3prevA : t3.previousState = .ascending := by rw [h3prev, hprev2, htc]
      have h3curS : t3.currentState = .standing := by rw [h3cur, hcurC, hns]
      have h3min : t3.minAngleInRep = t.minAngleInRep := by
        rw [ht3, assessSquatQuality_minAngleInRep_of_ne_bottom t2 ?_, h2min]
        rw [hcurC, hns]
        exact fun hcon => by cases hcon
      rcases Option.eq_none_or_eq_some t.minAngleInRep with hm | ⟨m, hm⟩
      · -- no minimum recorded: the completion check cannot fire
        have hnofire : ¬(t3.previousState = .ascending ∧
            t3.currentState = .standing ∧ t3.minAngleInRep.isSome) := by
          rintro ⟨_, _, hc⟩
          rw [h3min, hm] at hc
          cases hc
        obtain ⟨hc1, _, _, hc4, hc5⟩ := checkRepCompletion_nofire t3 now hnofire
        refine ⟨⟨fun h => ?_, ?_⟩, ?_, fun _ => ⟨?_, ?_, ?_⟩⟩
        · rw [hfin_rc, hc1, h3rc] at h
          omega
        · rintro ⟨m', hm', _⟩
          rw [hm] at hm'
          cases hm'
        · intro m' hm' _
          rw [hm] at hm'
          cases hm'
        · rw [hfin_rc, hc1, h3rc]
        · rw [hd3, hc4]
        · rw [hd4, hc5]
      · -- minimum recorded: the rep fires
        obtain ⟨hf1, hf2, hf3, hf4, hf5⟩ :=
          checkRepCompletion_fire t3 now m h3prevA h3curS (by rw [h3min, hm])
        refine ⟨⟨fun _ => ⟨m, hm, hevT⟩, fun _ => ?_⟩, ?_, fun hn => ?_⟩
        · rw [hfin_rc, hf1, h3rc]
        · intro m' hm' _
          rw [hm] at hm'
          injection hm' with hmm
          subst hmm
          refine ⟨?_, ?_, ?_, ?_⟩
          · rw [hfin_ra, hf2, h3ra]
          · rw [hfin_min, hf3]
          · rw [hd3, hf4]
          · rw [hd4, hf5, h3pid, h3rc]
        · exact absurd ⟨m, hm, hevT⟩ hn
    · -- the committed transition is not ASCENDING → STANDING
      have hevne : (t.update a now).2.stateChanged ≠
          some ⟨t.personId, SquatState.standing, SquatState.ascending⟩ := by
        rw [hev]
        intro hcon
        simp only [Option.some.injEq, StateChangedEvent.mk.injEq] at hcon
        exact hBB ⟨hcon.2.1, hcon.2.2⟩
      have hnofire : ¬(t3.previousState = .ascending ∧
          t3.currentState = .standing ∧ t3.minAngleInRep.isSome) := by
        rintro ⟨ha, hb, _⟩
        rw [h3prev, hprev2] at ha
        rw [h3cur, hcurC] at hb
        exact hBB ⟨hb, ha⟩
      obtain ⟨hc1, _, _, hc4, hc5⟩ := checkRepCompletion_nofire t3 now hnofire
      refine ⟨⟨fun h => ?_, ?_⟩, ?_, fun _ => ⟨?_, ?_, ?_⟩⟩
      · rw [hfin_rc, hc1, h3rc] at h
        omega
      · rintro ⟨m, _, hcs⟩
        exact absurd hcs hevne
      · intro m _ hcs
        exact absurd hcs hevne
      · rw [hfin_rc, hc1, h3rc]
      · rw [hd3, hc4]
      · rw [hd4, hc5]

/-- Trackers that arise from a run of update calls on a fresh instance. -/
def ReachableTracker (t : SquatTracker) : Prop :=
  ∃ (pid : Nat) (cfg : SquatConfig) (inputs : List (Option ℚ × ℚ)),
    t = runTracker pid cfg inputs

/-- The input stream of the amended squat-sequence scenario: each of the
seven angles 170, 150, 120, 95, 120, 150, 170 held for 8 consecutive
frames. -/
def heldSequence : List (Option ℚ × ℚ) :=
  ([170, 150, 120, 95, 120, 150, 170] : List ℚ).flatMap
    (fun a => List.replicate 8 (some a, (0 : ℚ)))

/-- C1: on every update call of a (reachable) SquatTracker, the rep count
increments by exactly 1 precisely when the call commits an
ASCENDING → STANDING transition while a minimum-angle-in-rep value is
recorded; on that call the recorded minimum is appended to the rep history,
the in-progress minimum is reset to undefined, and the rep-completed
callback payload carries (person id, new rep count, minimum angle reached);
on every other call the rep count is unchanged. -/
theorem squatTracker_rep_completion (t : SquatTracker) (h : ReachableTracker t)
    (a : Option ℚ) (now : ℚ) :
    ((t.update a now).1.repCount = t.repCount + 1 ↔
      (∃ m, t.minAngleInRep = some m ∧
        (t.update a now).2.stateChanged =
          some ⟨t.personId, SquatState.standing, SquatState.ascending⟩)) ∧
    (∀ m, t.minAngleInRep = some m →
      (t.update a now).2.stateChanged =
        some ⟨t.personId, SquatState.standing, SquatState.ascending⟩ →
      (t.update a now).1.repAngles = t.repAngles ++ [m] ∧
      (t.update a now).1.minAngleInRep = none ∧
      (t.update a now).2.repCompleted = true ∧
      (t.update a now).2.repEvent = some ⟨t.personId, t.repCount + 1, m⟩) ∧
    ((¬∃ m, t.minAngleInRep = some m ∧
        (t.update a now).2.stateChanged =
          some ⟨t.personId, SquatState.standing, SquatState.ascending⟩) →
      (t.update a now).1.repCount = t.repCount ∧
      (t.update a now).2.repCompleted = false ∧
      (t.update a now).2.repEvent = none) := by
  obtain ⟨pid, cfg, inputs, rfl⟩ := h
  exact update_rep_spec _ (repInv_run pid cfg inputs) a now

/-- Witness for C1: after 50 frames of `heldSequence` the tracker rests in
ASCENDING with minimum 95 recorded; the next 170-input commits
ASCENDING → STANDING and counts exactly one rep with payload (0, 1, 95). -/
theorem squatTracker_rep_completion_witness :
    ((runTracker 0 {} (heldSequence.take 50)).update (some 170) 0).1.repCount =
      (runTracker 0 {} (heldSequence.take 50)).repCount + 1 ∧
    ((runTracker 0 {} (heldSequence.take 50)).update (some 170) 0).2.repEvent =
      some ⟨(runTracker 0 {} (heldSequence.take 50)).personId,
        (runTracker 0 {} (heldSequence.take 50)).repCount + 1, 95⟩ := by
  obtain ⟨h1, h2, _⟩ := squatTracker_rep_completion
    (runTracker 0 {} (heldSequence.take 50)) ⟨0, {}, heldSequence.take 50, rfl⟩
    (some 170) 0
  have hm : (runTracker 0 {} (heldSequence.take 50)).minAngleInRep = some 95 := by
    decide
  have hev : ((runTracker 0 {} (heldSequence.take 50)).update (some 170) 0).2.stateChanged =
      some ⟨(runTracker 0 {} (heldSequence.take 50)).personId,
        SquatState.standing, SquatState.ascending⟩ := by
    decide
  exact ⟨h1.mpr ⟨95, hm, hev⟩, (h2 95 hm hev).2.2.2⟩

/-- C2 counterexample: after seven frames at angle 170 the tracker rests in
STANDING; a single frame at angle 95 — a one-frame spike whose computed
state differs from STANDING for that frame only — immediately commits the
change STANDING → DESCENDING, and the change persists even after the input
reverts to 170 on the next frame. -/
theorem debounce_counterexample :
    (runTracker 0 {} (List.replicate 7 ((some (170 : ℚ)), (0 : ℚ)))).currentState =
      SquatState.standing ∧
    ((runTracker 0 {} (List.replicate 7 ((some (170 : ℚ)), (0 : ℚ)))).update
        (some 95) 0).2.stateChanged =
      some ⟨0, SquatState.descending, SquatState.standing⟩ ∧
    (runTracker 0 {} (List.replicate 7 ((some (170 : ℚ)), (0 : ℚ)) ++
        [((some (95 : ℚ)), (0 : ℚ)), ((some (170 : ℚ)), (0 : ℚ))])).currentState =
      SquatState.descending := by
  decide

/-- C2 amended: a candidate state change is committed only when the CURRENT
committed state has already persisted for at least `min_state_duration`
frames (`state_frame_count ≥ min_state_duration`), and a commit resets the
frame counter to 1, so committed changes are at least `min_state_duration`
frames apart; the newly-computed state itself may have held for just one
frame when it is committed. -/
theorem debounce_amended (t : SquatTracker) (a : Option ℚ) (now : ℚ)
    (h : ((t.update a now).2.stateChanged).isSome = true) :
    t.config.minStateDuration ≤ t.stateFrameCount ∧
    (t.update a now).1.stateFrameCount = 1 := by
  obtain ⟨hd1, hd2, _, _⟩ := update_decomp t a now
  rcases updateStateMachine_cases (t.appendAngle a) now with hA | hB
  · exfalso
    rw [hd2] at h
    rcases hA with ⟨he, _⟩ | ⟨_, he⟩ <;> rw [he] at h <;> cases h
  · obtain ⟨ns, _, _, _, _, hge, hsfc⟩ := hB
    constructor
    · rw [← appendAngle_config t a, ← appendAngle_stateFrameCount t a]
      exact hge
    · rw [hd1, updatePerformanceMetrics_stateFrameCount,
        checkRepCompletion_stateFrameCount, assessSquatQuality_stateFrameCount,
        hsfc]

/-- Witness for the amended C2: the spike frame of the counterexample does
commit a change, and at that point the STANDING state had persisted for 4
frames, at least the default `min_state_duration` of 3. -/
theorem debounce_amended_witness :
    ((((runTracker 0 {} (List.replicate 7 ((some (170 : ℚ)), (0 : ℚ)))).update
        (some 95) 0).2.stateChanged).isSome = true) ∧
    (runTracker 0 {} (List.replicate 7 ((some (170 : ℚ)),
        (0 : ℚ)))).config.minStateDuration ≤
      (runTracker 0 {} (List.replicate 7 ((some (170 : ℚ)), (0 : ℚ)))).stateFrameCount :=
  ⟨by decide,
    (debounce_amended (runTracker 0 {} (List.replicate 7 ((some (170 : ℚ)), (0 : ℚ))))
      (some 95) 0 (by decide)).1⟩

/-- C3 counterexample: feeding the seven-frame monotonic sequence
170, 150, 120, 95, 120, 150, 170 to a fresh tracker with default thresholds
leaves the rep count at 0 (the claim says 1), ends in committed state
DESCENDING→ASCENDING having never committed STANDING or BOTTOM, and records
no rep minimum at all. -/
theorem monotone_sequence_counterexample :
    (runTracker 0 {} (([170, 150, 120, 95, 120, 150, 170] : List ℚ).map
        (fun a => ((some a : Option ℚ), (0 : ℚ))))).repCount = 0 ∧
    (runTracker 0 {} (([170, 150, 120, 95, 120, 150, 170] : List ℚ).map
        (fun a => ((some a : Option ℚ), (0 : ℚ))))).currentState =
      SquatState.ascending ∧
    (runTracker 0 {} (([170, 150, 120, 95, 120, 150, 170] : List ℚ).map
        (fun a => ((some a : Option ℚ), (0 : ℚ))))).stateHistory.map Prod.fst =
      [SquatState.descending, SquatState.ascending] ∧
    (runTracker 0 {} (([170, 150, 120, 95, 120, 150, 170] : List ℚ).map
        (fun a => ((some a : Option ℚ), (0 : ℚ))))).repAngles = [] := by
  decide

/-- C3 amended: holding each of the seven angles 170, 150, 120, 95, 120,
150, 170 for 8 consecutive frames (so that smoothing and the state-duration
rule can act) drives the committed state through STANDING, DESCENDING,
ASCENDING, BOTTOM, ASCENDING, STANDING — with one extra committed ASCENDING
while the smoothed angle sits in the intermediate band on the 150-plateau —
increments the rep count by exactly 1 at the final STANDING transition, and
records a minimum-in-rep angle of exactly 95. -/
theorem monotone_sequence_amended :
    (runTracker 0 {} heldSequence).stateHistory.map Prod.fst =
      [SquatState.standing, SquatState.descending, SquatState.ascending,
       SquatState.bottom, SquatState.ascending, SquatState.standing] ∧
    (runTracker 0 {} heldSequence).repCount = 1 ∧
    (runTracker 0 {} heldSequence).repAngles = [95] := by
  decide

/-- `SquatTracker.reset`: clear all per-session state, keeping the person id
and configuration. -/
def SquatTracker.reset (t : SquatTracker) : SquatTracker :=
  { t with
      currentState := .unknown
      previousState := .unknown
      stateFrameCount := 0
      stateHistory := []
      kneeAngles := []
      smoothedAngle := none
      minAngleInRep := none
      repCount := 0
      lastRepTime := none
      repStartTime := none
      currentDepthQuality := .unknown
      formFeedback := []
      totalSessionTime := 0
      averageRepTime := 0
      bestDepthAngle := none
      repAngles := [] }

/-- State of `MultiPersonSquatTracker`: an insertion-ordered mapping
person id → tracker plus the session start time. -/
structure MultiPersonSquatTracker where
  config : SquatConfig
  trackers : List (Nat × SquatTracker)
  sessionStartTime : ℚ
  deriving DecidableEq, Repr

/-- Fresh multi-person tracker (`MultiPersonSquatTracker.__init__`). -/
def MultiPersonSquatTracker.init (config : SquatConfig) (now : ℚ) :
    MultiPersonSquatTracker :=
  { config := config, trackers := [], sessionStartTime := now }

/-- Tracker lookup in the person-id mapping. -/
def MultiPersonSquatTracker.findTracker (m : MultiPersonSquatTracker)
    (personId : Nat) : Option SquatTracker :=
  (m.trackers.find? (fun p => p.1 = personId)).map Prod.snd

/-- `MultiPersonSquatTracker.get_or_create_tracker`: returns the updated
mapping and whether a new tracker (and hence an `on_new_person` event) was
created. -/
def MultiPersonSquatTracker.getOrCreateTracker (m : MultiPersonSquatTracker)
    (personId : Nat) : MultiPersonSquatTracker × Bool :=
  match m.findTracker personId with
  | some _ => (m, false)
  | none =>
    ({ m with trackers := m.trackers ++ [(personId, SquatTracker.init personId m.config)] },
     true)

/-- `MultiPersonSquatTracker.update_person`, taking the averaged knee angle
extracted from the landmark dictionary. -/
def MultiPersonSquatTracker.updatePerson (m : MultiPersonSquatTracker)
    (personId : Nat) (currentAngle : Option ℚ) (now : ℚ) :
    MultiPersonSquatTracker × UpdateResult × Bool :=
  let mc := m.getOrCreateTracker personId
  let m1 := mc.1
  match m1.findTracker personId with
  | some t =>
    let r := t.update currentAngle now
    ({ m1 with trackers := (m1.trackers.map
        (fun p => if p.1 = personId then (p.1, r.1) else p)) },
     r.2, mc.2)
  | none =>
    -- unreachable: `getOrCreateTracker` always installs the tracker
    (m1, (SquatTracker.init personId m.config).update currentAngle now |>.2, mc.2)

/-- Aggregate statistics dictionary of
`MultiPersonSquatTracker.get_aggregate_stats` (without the nested per-person
statistics dictionaries). -/
structure AggregateStats where
  totalReps : Nat
  activePeople : Nat
  sessionDuration : ℚ
  avgRepsPerPerson : ℚ
  bestPerformer : Option Nat
  bestRepCount : Nat
  deriving DecidableEq, Repr

/-- `MultiPersonSquatTracker.get_aggregate_stats`. -/
def MultiPersonSquatTracker.getAggregateStats (m : MultiPersonSquatTracker)
    (now : ℚ) : AggregateStats :=
  let totalReps := (m.trackers.map (fun p => p.2.repCount)).sum
  let activePeople := m.trackers.length
  let best := m.trackers.foldl
    (fun (acc : Option Nat × Nat) p =>
      if p.2.repCount > acc.2 then (some p.1, p.2.repCount) else acc)
    (none, 0)
  { totalReps := totalReps
    activePeople := activePeople
    sessionDuration := now - m.sessionStartTime
    avgRepsPerPerson :=
      if activePeople > 0 then (totalReps : ℚ) / (activePeople : ℚ) else 0
    bestPerformer := best.1
    bestRepCount := best.2 }

/-- `MultiPersonSquatTracker.reset_session`: reset every owned tracker and
restart the session clock; the id → tracker mapping itself is kept. -/
def MultiPersonSquatTracker.resetSession (m : MultiPersonSquatTracker)
    (now : ℚ) : MultiPersonSquatTracker :=
  { m with
      trackers := m.trackers.map (fun p => (p.1, p.2.reset))
      sessionStartTime := now }

/-- `MultiPersonSquatTracker.remove_inactive_trackers`. -/
def MultiPersonSquatTracker.removeInactiveTrackers (m : MultiPersonSquatTracker)
    (now : ℚ) (inactiveThreshold : ℚ) : MultiPersonSquatTracker :=
  { m with trackers := (m.trackers.filter
      (fun p => !(pyTruthy p.2.lastRepTime &&
        decide (now - (p.2.lastRepTime.getD 0) > inactiveThreshold)))) }

/-- C8: resetting a MultiPersonSquatTracker zeroes the aggregate total rep
count while the set (indeed the ordered list) of known person ids is
identical before and after the reset — no identity is lost or renumbered. -/
theorem resetSession_roundtrip (m : MultiPersonSquatTracker) (now now' : ℚ) :
    ((m.resetSession now).getAggregateStats now').totalReps = 0 ∧
    (m.resetSession now).trackers.map Prod.fst = m.trackers.map Prod.fst := by
  constructor
  · show (((m.trackers.map (fun p => (p.1, p.2.reset))).map
      (fun p => p.2.repCount)).sum) = 0
    rw [List.map_map]
    apply List.sum_eq_zero
    intro x hx
    obtain ⟨p, _, rfl⟩ := List.mem_map.1 hx
    rfl
  · show (m.trackers.map (fun p => (p.1, p.2.reset))).map Prod.fst =
      m.trackers.map Prod.fst
    rw [List.map_map]
    rfl

/-! Embedding of `modules/fitness_analyzer.py`: the three exercise
detectors.  `process_frame` receives the joint angle computed by
`calculate_angle` on the frame's landmarks (`none` models the exception
path: landmarks missing or the angle comparison failing on a `None` angle),
since the trigonometric extraction is the external geometry boundary. -/

/-- Enumeration `ExerciseType`. -/
inductive ExerciseType where
  | squat
  | pushup
  | bicepCurl
  | plank
  deriving DecidableEq, Repr

/-- Dataclass `ExerciseState`. -/
structure ExerciseState where
  exerciseType : ExerciseType
  phase : String
  repCount : Nat
  lastAngle : ℚ
  confidence : ℚ
  formScore : ℚ
  deriving DecidableEq, Repr

/-- Initial state built in `ExerciseDetector.__init__`. -/
def ExerciseState.init (ty : ExerciseType) : ExerciseState :=
  { exerciseType := ty, phase := "unknown", repCount := 0, lastAngle := 0,
    confidence := 0, formScore := 100 }

/-- `SquatDetector` with its thresholds from `__init__`. -/
structure SquatDetector where
  uprightThreshold : ℚ := 160
  squatThreshold : ℚ := 100
  goodDepthMin : ℚ := 90
  goodDepthMax : ℚ := 110
  state : ExerciseState := ExerciseState.init .squat
  deriving DecidableEq, Repr

/-- `SquatDetector.process_frame` on the knee angle of the frame. -/
def SquatDetector.processFrame (d : SquatDetector) (kneeAngle : Option ℚ) :
    SquatDetector :=
  match kneeAngle with
  | none => { d with state := { d.state with confidence := 0 } }
  | some angle =>
    let s0 := d.state
    let s1 :=
      if angle > d.uprightThreshold then
        { s0 with
            repCount := if s0.phase = "bottom" then s0.repCount + 1 else s0.repCount
            phase := "up" }
      else if angle < d.squatThreshold then
        { s0 with phase := "bottom" }
      else
        { s0 with phase := if s0.lastAngle > angle then "down" else "up" }
    let s2 :=
      if s1.phase = "bottom" then
        if d.goodDepthMin ≤ angle ∧ angle ≤ d.goodDepthMax then
          { s1 with formScore := min 100 (s1.formScore + 1) }
        else
          { s1 with formScore := max 60 (s1.formScore - 2) }
      else s1
    { d with state := { s2 with
        lastAngle := angle
        confidence := if angle > 0 then 9/10 else 0 } }

/-- `PushupDetector` with its thresholds from `__init__`. -/
structure PushupDetector where
  upThreshold : ℚ := 160
  downThreshold : ℚ := 90
  goodDepthMin : ℚ := 80
  goodDepthMax : ℚ := 100
  state : ExerciseState := ExerciseState.init .pushup
  deriving DecidableEq, Repr

/-- `PushupDetector.process_frame` on the elbow angle of the frame. -/
def PushupDetector.processFrame (d : PushupDetector) (elbowAngle : Option ℚ) :
    PushupDetector :=
  match elbowAngle with
  | none => { d with state := { d.state with confidence := 0 } }
  | some angle =>
    let s0 := d.state
    let s1 :=
      if angle > d.upThreshold then
        { s0 with
            repCount := if s0.phase = "bottom" then s0.repCount + 1 else s0.repCount
            phase := "up" }
      else if angle < d.downThreshold then
        { s0 with phase := "bottom" }
      else
        { s0 with phase := if s0.lastAngle > angle then "down" else "up" }
    let s2 :=
      if s1.phase = "bottom" then
        if d.goodDepthMin ≤ angle ∧ angle ≤ d.goodDepthMax then
          { s1 with formScore := min 100 (s1.formScore + 1) }
        else
          { s1 with formScore := max 60 (s1.formScore - 2) }
      else s1
    { d with state := { s2 with
        lastAngle := angle
        confidence := if angle > 0 then 8/10 else 0 } }

/-- `BicepCurlDetector` with its thresholds from `__init__`. -/
structure BicepCurlDetector where
  upThreshold : ℚ := 40
  downThreshold : ℚ := 160
  state : ExerciseState := ExerciseState.init .bicepCurl
  deriving DecidableEq, Repr

/-- `BicepCurlDetector.process_frame` on the elbow angle of the frame. -/
def BicepCurlDetector.processFrame (d : BicepCurlDetector)
    (elbowAngle : Option ℚ) : BicepCurlDetector :=
  match elbowAngle with
  | none => { d with state := { d.state with confidence := 0 } }
  | some angle =>
    let s0 := d.state
    let s1 :=
      if angle < d.upThreshold then
        { s0 with
            repCount := if s0.phase = "down" then s0.repCount + 1 else s0.repCount
            phase := "up" }
      else if angle > d.downThreshold then
        { s0 with phase := "down" }
      else
        { s0 with phase := if s0.lastAngle > angle then "up" else "down" }
    let angleChange := |angle - s0.lastAngle|
    let s2 :=
      if angleChange < 5 then
        { s1 with formScore := min 100 (s1.formScore + 1/2) }
      else if angleChange > 15 then
        { s1 with formScore := max 60 (s1.formScore - 1) }
      else s1
    { d with state := { s2 with
        lastAngle := angle
        confidence := if angle > 0 then 7/10 else 0 } }

/-- Drive a fresh `SquatDetector` through a list of per-frame angles. -/
def runSquatDetector (inputs : List (Option ℚ)) : SquatDetector :=
  inputs.foldl SquatDetector.processFrame {}

/-- Drive a fresh `PushupDetector` through a list of per-frame angles. -/
def runPushupDetector (inputs : List (Option ℚ)) : PushupDetector :=
  inputs.foldl PushupDetector.processFrame {}

/-- Drive a fresh `BicepCurlDetector` through a list of per-frame angles. -/
def runBicepCurlDetector (inputs : List (Option ℚ)) : BicepCurlDetector :=
  inputs.foldl BicepCurlDetector.processFrame {}

/-- A squat-detector step keeps the form score in [60, 100]. -/
theorem squatDetector_step_bounds (d : SquatDetector) (a : Option ℚ)
    (h : 60 ≤ d.state.formScore ∧ d.state.formScore ≤ 100) :
    60 ≤ (d.processFrame a).state.formScore ∧
    (d.processFrame a).state.formScore ≤ 100 := by
  obtain ⟨h1, h2⟩ := h
  cases a with
  | none => exact ⟨h1, h2⟩
  | some angle =>
    dsimp only [SquatDetector.processFrame]
    split_ifs <;>
      constructor <;>
      simp only [le_min_iff, min_le_iff, le_max_iff, max_le_iff] <;>
      first
        | exact h1
        | exact h2
        | exact ⟨by norm_num, by linarith⟩
        | exact Or.inl (by norm_num)

/-- A pushup-detector step keeps the form score in [60, 100]. -/
theorem pushupDetector_step_bounds (d : PushupDetector) (a : Option ℚ)
    (h : 60 ≤ d.state.formScore ∧ d.state.formScore ≤ 100) :
    60 ≤ (d.processFrame a).state.formScore ∧
    (d.processFrame a).state.formScore ≤ 100 := by
  obtain ⟨h1, h2⟩ := h
  cases a with
  | none => exact ⟨h1, h2⟩
  | some angle =>
    dsimp only [PushupDetector.processFrame]
    split_ifs <;>
      constructor <;>
      simp only [le_min_iff, min_le_iff, le_max_iff, max_le_iff] <;>
      first
        | exact h1
        | exact h2
        | exact ⟨by norm_num, by linarith⟩
        | exact Or.inl (by norm_num)

/-- A curl-detector step keeps the form score in [60, 100]. -/
theorem bicepCurlDetector_step_bounds (d : BicepCurlDetector) (a : Option ℚ)
    (h : 60 ≤ d.state.formScore ∧ d.state.formScore ≤ 100) :
    60 ≤ (d.processFrame a).state.formScore ∧
    (d.processFrame a).state.formScore ≤ 100 := by
  obtain ⟨h1, h2⟩ := h
  cases a with
  | none => exact ⟨h1, h2⟩
  | some angle =>
    dsimp only [BicepCurlDetector.processFrame]
    split_ifs <;>
      constructor <;>
      simp only [le_min_iff, min_le_iff, le_max_iff, max_le_iff] <;>
      first
        | exact h1
        | exact h2
        | exact ⟨by norm_num, by linarith⟩
        | exact Or.inl (by norm_num)

/-- C7: starting from the initial form score of 100, after any sequence of
`process_frame` calls each of the three exercise detectors keeps its form
score inside [60, 100]. -/
theorem formScore_clamped (inputs : List (Option ℚ)) :
    (60 ≤ (runSquatDetector inputs).state.formScore ∧
      (runSquatDetector inputs).state.formScore ≤ 100) ∧
    (60 ≤ (runPushupDetector inputs).state.formScore ∧
      (runPushupDetector inputs).state.formScore ≤ 100) ∧
    (60 ≤ (runBicepCurlDetector inputs).state.formScore ∧
      (runBicepCurlDetector inputs).state.formScore ≤ 100) := by
  refine ⟨?_, ?_, ?_⟩
  · rw [runSquatDetector]
    have : ∀ (d : SquatDetector),
        60 ≤ d.state.formScore ∧ d.state.formScore ≤ 100 →
        60 ≤ (inputs.foldl SquatDetector.processFrame d).state.formScore ∧
        (inputs.foldl SquatDetector.processFrame d).state.formScore ≤ 100 := by
      induction inputs with
      | nil => exact fun d h => h
      | cons a rest ih =>
        intro d h
        rw [List.foldl_cons]
        exact ih _ (squatDetector_step_bounds d a h)
    exact this _ (by norm_num [ExerciseState.init])
  · rw [runPushupDetector]
    have : ∀ (d : PushupDetector),
        60 ≤ d.state.formScore ∧ d.state.formScore ≤ 100 →
        60 ≤ (inputs.foldl PushupDetector.processFrame d).state.formScore ∧
        (inputs.foldl PushupDetector.processFrame d).state.formScore ≤ 100 := by
      induction inputs with
      | nil => exact fun d h => h
      | cons a rest ih =>
        intro d h
        rw [List.foldl_cons]
        exact ih _ (pushupDetector_step_bounds d a h)
    exact this _ (by norm_num [ExerciseState.init])
  · rw [runBicepCurlDetector]
    have : ∀ (d : BicepCurlDetector),
        60 ≤ d.state.formScore ∧ d.state.formScore ≤ 100 →
        60 ≤ (inputs.foldl BicepCurlDetector.processFrame d).state.formScore ∧
        (inputs.foldl BicepCurlDetector.processFrame d).state.formScore ≤ 100 := by
      induction inputs with
      | nil => exact fun d h => h
      | cons a rest ih =>
        intro d h
        rw [List.foldl_cons]
        exact ih _ (bicepCurlDetector_step_bounds d a h)
    exact this _ (by norm_num [ExerciseState.init])

/-! Embedding of `modules/person_detector.py`: `PersonDetection` and
`SimplePersonTracker`. -/

/-- `PersonDetection` with bounding box `(x, y, w, h)`. -/
structure PersonDetection where
  x : Int
  y : Int
  w : Int
  h : Int
  confidence : ℚ
  classId : Int
  deriving DecidableEq, Repr, Inhabited

/-- `PersonDetection._calculate_center`: `(x + w // 2, y + h // 2)` with
Python floor division. -/
def PersonDetection.center (d : PersonDetection) : Int × Int :=
  (d.x + d.w.fdiv 2, d.y + d.h.fdiv 2)

/-- Per-track record held in `tracked_persons` (the stored detection object
is omitted: no claim reads it back). -/
structure TrackInfo where
  centroid : Int × Int
  lastSeen : Nat
  deriving DecidableEq, Repr

/-- `SimplePersonTracker` state. -/
structure SimplePersonTracker where
  maxDistance : ℚ
  maxFramesMissing : Nat
  trackedPersons : List (Nat × TrackInfo)
  nextPersonId : Nat
  frameCount : Nat
  deriving DecidableEq, Repr

/-- Fresh tracker (`SimplePersonTracker.__init__`, defaults 100.0 / 30). -/
def SimplePersonTracker.init (maxDistance : ℚ := 100)
    (maxFramesMissing : Nat := 30) : SimplePersonTracker :=
  { maxDistance := maxDistance, maxFramesMissing := maxFramesMissing,
    trackedPersons := [], nextPersonId := 0, frameCount := 0 }

/-- Squared Euclidean distance between two centroids.  `math.hypot`
comparisons against `best_distance` and `max_distance` (all nonnegative) are
modelled by comparing squares, a strictly monotone transform. -/
def distSq (p q : Int × Int) : Int := (p.1 - q.1) ^ 2 + (p.2 - q.2) ^ 2

/-- Inner loop of `_match_detections_to_tracks`: the best unclaimed
detection for one track — strictly closer than the best so far and within
`max_distance`; ties keep the earlier index. -/
def bestMatch (maxDistance : ℚ) (trackCenter : Int × Int)
    (detCenters : List (Nat × (Int × Int))) (used : List Nat) : Option Nat :=
  (detCenters.foldl
    (fun (acc : Option Nat × Option Int) p =>
      if used.contains p.1 then acc
      else
        let d := distSq trackCenter p.2
        let isBetter :=
          match acc.2 with
          | none => true
          | some b => decide (d < b)
        if isBetter && decide ((d : ℚ) ≤ maxDistance ^ 2) then
          (some p.1, some d)
        else acc)
    (none, none)).1

/-- `SimplePersonTracker._match_detections_to_tracks`: greedy one-to-one
matching in track order; result entries follow the track order. -/
def SimplePersonTracker.matchDetectionsToTracks (t : SimplePersonTracker)
    (dets : List PersonDetection) : List (Nat × Option Nat) :=
  if dets.isEmpty || t.trackedPersons.isEmpty then []
  else
    (t.trackedPersons.foldl
      (fun (acc : List (Nat × Option Nat) × List Nat) p =>
        match bestMatch t.maxDistance p.2.centroid
            (dets.map PersonDetection.center).enum acc.2 with
        | some di => (acc.1 ++ [(p.1, some di)], acc.2 ++ [di])
        | none => (acc.1 ++ [(p.1, none)], acc.2))
      ([], [])).1

/-- Spawn new tracks for the unmatched detections in order, assigning
consecutive fresh ids; returns the new track entries, the new assignment
entries and the next fresh id. -/
def spawnTracks (frameCount : Nat) (nextId : Nat) :
    List PersonDetection →
      List (Nat × TrackInfo) × List (Nat × PersonDetection) × Nat
  | [] => ([], [], nextId)
  | d :: rest =>
    let r := spawnTracks frameCount (nextId + 1) rest
    ((nextId, ⟨d.center, frameCount⟩) :: r.1, (nextId, d) :: r.2.1, r.2.2)

/-- `SimplePersonTracker._remove_stale_tracks`: drop every track whose
frames-missing count exceeds `max_frames_missing`. -/
def removeStaleTracks (tracks : List (Nat × TrackInfo))
    (frameCount maxMissing : Nat) : List (Nat × TrackInfo) :=
  tracks.filter (fun p => !(decide (frameCount - p.2.lastSeen > maxMissing)))

/-- Centroid/last-seen refresh of the matched tracks (the
`assignments.items()` loop of `update`). -/
def updateMatchedTracks (tracks : List (Nat × TrackInfo))
    (assignments : List (Nat × Option Nat)) (dets : List PersonDetection)
    (fc : Nat) : List (Nat × TrackInfo) :=
  tracks.map (fun p =>
    (p.1,
      match (assignments.find? (fun q => q.1 = p.1)).bind Prod.snd with
      | some di =>
        match dets[di]? with
        | some d => ⟨d.center, fc⟩
        | none => p.2
      | none => p.2))

/-- Detections whose index was not claimed by any track. -/
def unmatchedDetections (dets : List PersonDetection) (usedIdx : List Nat) :
    List PersonDetection :=
  (dets.enum.filter (fun p => !(usedIdx.contains p.1))).map Prod.snd

/-- `SimplePersonTracker.update`: advance the frame counter; with no
existing tracks give every detection a fresh id, otherwise greedily match,
refresh matched tracks, spawn tracks for unmatched detections and finally
evict stale tracks.  Returns the tracker and the person-id assignments. -/
def SimplePersonTracker.update (t : SimplePersonTracker)
    (dets : List PersonDetection) :
    SimplePersonTracker × List (Nat × PersonDetection) :=
  let fc := t.frameCount + 1
  if t.trackedPersons.isEmpty then
    let sp := spawnTracks fc t.nextPersonId dets
    ({ t with frameCount := fc, trackedPersons := sp.1, nextPersonId := sp.2.2 },
     sp.2.1)
  else
    let assignments := t.matchDetectionsToTracks dets
    let usedIdx := assignments.filterMap Prod.snd
    let updated := updateMatchedTracks t.trackedPersons assignments dets fc
    let matchedAssignments := assignments.filterMap (fun q =>
      q.2.bind (fun di => (dets[di]?).map (fun d => (q.1, d))))
    let sp := spawnTracks fc t.nextPersonId (unmatchedDetections dets usedIdx)
    ({ t with
        frameCount := fc
        trackedPersons := removeStaleTracks (updated ++ sp.1) fc t.maxFramesMissing
        nextPersonId := sp.2.2 },
     matchedAssignments ++ sp.2.1)

/-- The next fresh id after spawning advances by the number of spawned
tracks. -/
theorem spawnTracks_next (fc nid : Nat) (ds : List PersonDetection) :
    (spawnTracks fc nid ds).2.2 = nid + ds.length := by
  induction ds generalizing nid with
  | nil => rfl
  | cons d rest ih =>
    show (spawnTracks fc (nid + 1) rest).2.2 = nid + (rest.length + 1)
    rw [ih]
    omega

/-- Every spawned track has a fresh id in `[nextId, nextId + |ds|)` and is
stamped with the current frame. -/
theorem spawnTracks_mem (fc nid : Nat) (ds : List PersonDetection) :
    ∀ p ∈ (spawnTracks fc nid ds).1,
      nid ≤ p.1 ∧ p.1 < nid + ds.length ∧ p.2.lastSeen = fc := by
  induction ds generalizing nid with
  | nil => intro p hp; cases hp
  | cons d rest ih =>
    intro p hp
    cases hp with
    | head => exact ⟨le_refl _, by simp, rfl⟩
    | tail _ hp =>
      obtain ⟨h1, h2, h3⟩ := ih (nid + 1) p hp
      exact ⟨by omega, by simp; omega, h3⟩

/-- Refreshing matched tracks does not change the id column. -/
theorem updateMatchedTracks_map_fst (tracks : List (Nat × TrackInfo))
    (assignments : List (Nat × Option Nat)) (dets : List PersonDetection)
    (fc : Nat) :
    (updateMatchedTracks tracks assignments dets fc).map Prod.fst =
      tracks.map Prod.fst := by
  induction tracks with
  | nil => rfl
  | cons p rest ih =>
    show _ :: (updateMatchedTracks rest assignments dets fc).map Prod.fst =
      _ :: rest.map Prod.fst
    rw [ih]

/-- All ids in the tracking table are below the next fresh id. -/
def IdsBelow (t : SimplePersonTracker) : Prop :=
  ∀ p ∈ t.trackedPersons, p.1 < t.nextPersonId

/-- Components of `update` in the no-existing-tracks branch. -/
theorem update_empty_spec (t : SimplePersonTracker) (dets : List PersonDetection)
    (h : t.trackedPersons.isEmpty = true) :
    (t.update dets).1.trackedPersons =
      (spawnTracks (t.frameCount + 1) t.nextPersonId dets).1 ∧
    (t.update dets).1.nextPersonId = t.nextPersonId + dets.length ∧
    (t.update dets).1.frameCount = t.frameCount + 1 ∧
    (t.update dets).1.maxFramesMissing = t.maxFramesMissing := by
  simp only [SimplePersonTracker.update, h, if_true]
  refine ⟨?_, ?_, ?_, ?_⟩ <;> first | rfl | exact spawnTracks_next _ _ _ | trivial

/-- Components of `update` in the matching branch. -/
theorem update_nonempty_spec (t : SimplePersonTracker)
    (dets : List PersonDetection) (h : t.trackedPersons.isEmpty = false) :
    (t.update dets).1.trackedPersons =
      removeStaleTracks
        (updateMatchedTracks t.trackedPersons (t.matchDetectionsToTracks dets)
            dets (t.frameCount + 1) ++
          (spawnTracks (t.frameCount + 1) t.nextPersonId
            (unmatchedDetections dets
              ((t.matchDetectionsToTracks dets).filterMap Prod.snd))).1)
        (t.frameCount + 1) t.maxFramesMissing ∧
    (t.update dets).1.nextPersonId =
      t.nextPersonId +
        (unmatchedDetections dets
          ((t.matchDetectionsToTracks dets).filterMap Prod.snd)).length ∧
    (t.update dets).1.frameCount = t.frameCount + 1 ∧
    (t.update dets).1.maxFramesMissing = t.maxFramesMissing := by
  simp only [SimplePersonTracker.update, h, Bool.false_eq_true, if_false]
  refine ⟨?_, ?_, ?_, ?_⟩ <;> first | rfl | exact spawnTracks_next _ _ _ | trivial

/-- C4: after every `update` no retained track is missing for more than
`max_frames_missing` frames; the next-person-id counter never decreases; all
retained ids stay below it; every retained track either keeps an existing id
or received a fresh id at least the old `next_person_id`; and an id that is
currently unused and below `next_person_id` (in particular an evicted id) is
never assigned by the update. -/
theorem personTracker_update_invariants (t : SimplePersonTracker)
    (dets : List PersonDetection) (hIds : IdsBelow t) :
    (∀ p ∈ (t.update dets).1.trackedPersons,
      (t.update dets).1.frameCount - p.2.lastSeen ≤ t.maxFramesMissing) ∧
    t.nextPersonId ≤ (t.update dets).1.nextPersonId ∧
    IdsBelow (t.update dets).1 ∧
    (∀ p ∈ (t.update dets).1.trackedPersons,
      p.1 ∈ t.trackedPersons.map Prod.fst ∨
        (t.nextPersonId ≤ p.1 ∧ p.1 < (t.update dets).1.nextPersonId)) ∧
    (∀ pid, pid < t.nextPersonId → pid ∉ t.trackedPersons.map Prod.fst →
      pid ∉ (t.update dets).1.trackedPersons.map Prod.fst) := by
  cases hE : t.trackedPersons.isEmpty with
  | true =>
    obtain ⟨hT, hN, hF, _⟩ := update_empty_spec t dets hE
    have hmem := spawnTracks_mem (t.frameCount + 1) t.nextPersonId dets
    refine ⟨?_, ?_, ?_, ?_, ?_⟩
    · intro p hp
      rw [hT] at hp
      rw [hF, (hmem p hp).2.2]
      simp
    · rw [hN]; omega
    · intro p hp
      rw [hT] at hp
      rw [hN]
      exact (hmem p hp).2.1
    · intro p hp
      rw [hT] at hp
      rw [hN]
      exact Or.inr ⟨(hmem p hp).1, (hmem p hp).2.1⟩
    · intro pid hlt _ hmem'
      rw [hT] at hmem'
      obtain ⟨p, hp, rfl⟩ := List.mem_map.1 hmem'
      exact absurd (hmem p hp).1 (by omega)
  | false =>
    obtain ⟨hT, hN, hF, _⟩ := update_nonempty_spec t dets hE
    set assignments := t.matchDetectionsToTracks dets with hA
    set unm := unmatchedDetections dets (assignments.filterMap Prod.snd) with hU
    set updated := updateMatchedTracks t.trackedPersons assignments dets
      (t.frameCount + 1) with hUp
    set sp := spawnTracks (t.frameCount + 1) t.nextPersonId unm with hSp
    have hmemSp := spawnTracks_mem (t.frameCount + 1) t.nextPersonId unm
    have hGet : ∀ p, p ∈ (t.update dets).1.trackedPersons →
        p ∈ updated ∨ p ∈ sp.1 := by
      intro p hp
      rw [hT] at hp
      exact List.mem_append.1 (List.mem_filter.1 hp).1
    have hOldIds : ∀ p, p ∈ updated → p.1 ∈ t.trackedPersons.map Prod.fst := by
      intro p hp
      have : p.1 ∈ updated.map Prod.fst := List.mem_map.2 ⟨p, hp, rfl⟩
      rw [hUp, updateMatchedTracks_map_fst] at this
      exact this
    refine ⟨?_, ?_, ?_, ?_, ?_⟩
    · intro p hp
      rw [hT] at hp
      have := (List.mem_filter.1 hp).2
      rw [hF]
      simpa using this
    · rw [hN]; omega
    · intro p hp
      rcases hGet p hp with hu | hs
      · obtain ⟨q, hq, hqe⟩ := List.mem_map.1 (hOldIds p hu)
        rw [hN]
        have := hIds q hq
        omega
      · rw [hN]
        exact (hmemSp p hs).2.1
    · intro p hp
      rcases hGet p hp with hu | hs
      · exact Or.inl (hOldIds p hu)
      · exact Or.inr ⟨(hmemSp p hs).1, by rw [hN]; exact (hmemSp p hs).2.1⟩
    · intro pid hlt hnotin hmem'
      obtain ⟨p, hp, rfl⟩ := List.mem_map.1 hmem'
      rcases hGet p hp with hu | hs
      · exact hnotin (hOldIds p hu)
      · exact absurd (hmemSp p hs).1 (by omega)

/-- Witness for C4: a fresh tracker satisfies `IdsBelow`; updating it with
one detection yields a track seen this frame and next id 1. -/
theorem personTracker_update_invariants_witness :
    IdsBelow (SimplePersonTracker.init 100 30) ∧
    (SimplePersonTracker.init 100 30).nextPersonId ≤
      ((SimplePersonTracker.init 100 30).update
        [⟨0, 0, 10, 10, 1, 1⟩]).1.nextPersonId := by
  have h : IdsBelow (SimplePersonTracker.init 100 30) := by
    intro p hp
    cases hp
  exact ⟨h,
    (personTracker_update_invariants (SimplePersonTracker.init 100 30)
      [⟨0, 0, 10, 10, 1, 1⟩] h).2.1⟩

/-! Embedding of `modules/surveillance_analyzer.py`: restricted zones and
the zone-detection block of `analyze_person`. -/

/-- Enumeration `AlertType` of the surveillance module. -/
inductive SurvAlertType where
  | personDetected
  | restrictedZoneEntry
  | rapidMovement
  | fallDetected
  | loitering
  | objectLeft
  | unusualPosture
  deriving DecidableEq, Repr

/-- Dataclass `Alert` of the surveillance module. -/
structure SurvAlert where
  alertType : SurvAlertType
  timestamp : ℚ
  personId : Nat
  location : Int × Int
  confidence : ℚ
  description : String
  resolved : Bool := false
  deriving DecidableEq, Repr

/-- `RestrictedZone`.  The polygon-containment test
(`cv2.pointPolygonTest(points, point, False) >= 0`, an external OpenCV
routine) is carried as the black-box function `pipTest`, already curried
with the zone's points. -/
structure RestrictedZone where
  zoneId : Nat
  name : String
  pipTest : Int × Int → Bool
  alertType : SurvAlertType := .restrictedZoneEntry
  enabled : Bool := true

/-- `RestrictedZone.contains_point`: disabled zones contain nothing. -/
def RestrictedZone.containsPoint (z : RestrictedZone) (p : Int × Int) : Bool :=
  if !z.enabled then false else z.pipTest p

/-- Zone-detection block of `SurveillanceAnalyzer.analyze_person` for one
frame: iterate the zones; on a false→true containment transition (zone id
not yet in the occupied set) mark the zone occupied and emit a
RESTRICTED_ZONE_ENTRY alert; on true→false clear the marker and emit
nothing.  Each emitted alert is tagged with the zone id of the loop
iteration that emitted it. -/
def zoneDetectionStep (pid : Nat) (now : ℚ) (pos : Int × Int) :
    List RestrictedZone → List Nat → List Nat × List (Nat × SurvAlert)
  | [], occupied => (occupied, [])
  | z :: zs, occupied =>
    if z.containsPoint pos && !(occupied.contains z.zoneId) then
      let r := zoneDetectionStep pid now pos zs (occupied ++ [z.zoneId])
      (r.1,
        (z.zoneId,
          { alertType := .restrictedZoneEntry, timestamp := now, personId := pid,
            location := pos, confidence := 9/10,
            description := "Person entered " ++ z.name }) :: r.2)
    else if !(z.containsPoint pos) && occupied.contains z.zoneId then
      zoneDetectionStep pid now pos zs (occupied.erase z.zoneId)
    else
      zoneDetectionStep pid now pos zs occupied

/-- Iterated zone detection over a track's per-frame positions, starting
from a given occupied set. -/
def zoneDetectionRun (zones : List RestrictedZone) (pid : Nat) (now : ℚ) :
    List (Int × Int) → List Nat → List Nat × List (Nat × SurvAlert)
  | [], occupied => (occupied, [])
  | pos :: rest, occupied =>
    let r := zoneDetectionStep pid now pos zones occupied
    let rr := zoneDetectionRun zones pid now rest r.1
    (rr.1, r.2 ++ rr.2)

/-- Number of false→true transitions in a Boolean trace, given the previous
value. -/
def risingEdges (prev : Bool) : List Bool → Nat
  | [] => 0
  | b :: rest => (if b && !prev then 1 else 0) + risingEdges b rest

/-- Ids that belong to no processed zone keep their occupancy status. -/
theorem zoneStep_occ_notin (pid : Nat) (now : ℚ) (pos : Int × Int)
    (zs : List RestrictedZone) (occ : List Nat) (w : Nat)
    (hw : w ∉ zs.map RestrictedZone.zoneId) :
    (w ∈ (zoneDetectionStep pid now pos zs occ).1 ↔ w ∈ occ) := by
  induction zs generalizing occ with
  | nil => exact Iff.rfl
  | cons z zs ih =>
    have hwz : w ≠ z.zoneId := by
      intro hcon
      exact hw (by simp [hcon])
    have hwtail : w ∉ zs.map RestrictedZone.zoneId := by
      intro hcon
      exact hw (by simp [hcon])
    dsimp only [zoneDetectionStep]
    split
    · rw [ih _ hwtail]
      simp [hwz]
    · split
      · rw [ih _ hwtail]
        exact List.mem_erase_of_ne hwz
      · exact ih _ hwtail

/-- Eliminate a Boolean conjunction hypothesis. -/
theorem bool_and_elim {a b : Bool} (h : (a && b) = true) :
    a = true ∧ b = true := by
  rw [Bool.and_eq_true] at h
  exact h

/-- The occupied set stays duplicate-free across a zone-detection pass. -/
theorem zoneStep_occ_nodup (pid : Nat) (now : ℚ) (pos : Int × Int)
    (zs : List RestrictedZone) (occ : List Nat) (h : occ.Nodup) :
    (zoneDetectionStep pid now pos zs occ).1.Nodup := by
  induction zs generalizing occ with
  | nil => exact h
  | cons z zs ih =>
    dsimp only [zoneDetectionStep]
    split
    · rename_i hcond
      refine ih _ ?_
      have hnotin : z.zoneId ∉ occ := by
        have := bool_and_elim hcond
        simpa using this.2
      simp [List.nodup_append, h, hnotin]
    · split
      · exact ih _ (h.erase _)
      · exact ih _ h

/-- Every alert emitted by a zone pass is an entry alert for one of the
processed zones. -/
theorem zoneStep_alerts_shape (pid : Nat) (now : ℚ) (pos : Int × Int)
    (zs : List RestrictedZone) (occ : List Nat) :
    ∀ q ∈ (zoneDetectionStep pid now pos zs occ).2,
      q.1 ∈ zs.map RestrictedZone.zoneId ∧
      q.2.alertType = SurvAlertType.restrictedZoneEntry := by
  induction zs generalizing occ with
  | nil => intro q hq; cases hq
  | cons z zs ih =>
    intro q hq
    dsimp only [zoneDetectionStep] at hq
    split at hq
    · dsimp only at hq
      cases hq with
      | head => exact ⟨by simp, rfl⟩
      | tail _ hq =>
        obtain ⟨h1, h2⟩ := ih _ q hq
        exact ⟨by simp [h1], h2⟩
    · split at hq
      · obtain ⟨h1, h2⟩ := ih _ q hq
        exact ⟨by simp [h1], h2⟩
      · obtain ⟨h1, h2⟩ := ih _ q hq
        exact ⟨by simp [h1], h2⟩

/-- Alerts with ids absent from a list are filtered to nothing. -/
theorem filter_id_len_zero (l : List (Nat × SurvAlert)) (x : Nat)
    (h : ∀ q ∈ l, q.1 ≠ x) :
    (l.filter (fun q => decide (q.1 = x))).length = 0 := by
  rw [List.length_eq_zero, List.filter_eq_nil_iff]
  intro q hq
  simpa using h q hq

/-- Single-frame characterization of a zone pass for one zone of the list:
the entry alert is emitted exactly when the position is inside and the zone
was not occupied, and afterwards the occupancy marker equals containment
(in particular it is cleared on exit, with no alert). -/
theorem zoneStep_spec (pid : Nat) (now : ℚ) (pos : Int × Int)
    (zs : List RestrictedZone) (occ : List Nat)
    (hnd : (zs.map RestrictedZone.zoneId).Nodup) (hocc : occ.Nodup)
    (z : RestrictedZone) (hz : z ∈ zs) :
    (z.zoneId ∈ (zoneDetectionStep pid now pos zs occ).1 ↔
      z.containsPoint pos = true) ∧
    ((zoneDetectionStep pid now pos zs occ).2.filter
        (fun q => decide (q.1 = z.zoneId))).length =
      (if z.containsPoint pos = true ∧ z.zoneId ∉ occ then 1 else 0) := by
  induction zs generalizing occ with
  | nil => cases hz
  | cons z0 zs ih =>
    have hnd0 : z0.zoneId ∉ zs.map RestrictedZone.zoneId :=
      (List.nodup_cons.1 (by simpa using hnd)).1
    have hndtail : (zs.map RestrictedZone.zoneId).Nodup :=
      (List.nodup_cons.1 (by simpa using hnd)).2
    have htailz : ∀ q ∈ (zoneDetectionStep pid now pos zs
        (occ ++ [z0.zoneId])).2, q.1 ≠ z0.zoneId := fun q hq heq =>
      hnd0 (heq ▸ (zoneStep_alerts_shape pid now pos zs _ q hq).1)
    have htailz2 : ∀ q ∈ (zoneDetectionStep pid now pos zs
        (occ.erase z0.zoneId)).2, q.1 ≠ z0.zoneId := fun q hq heq =>
      hnd0 (heq ▸ (zoneStep_alerts_shape pid now pos zs _ q hq).1)
    have htailz3 : ∀ q ∈ (zoneDetectionStep pid now pos zs occ).2,
        q.1 ≠ z0.zoneId := fun q hq heq =>
      hnd0 (heq ▸ (zoneStep_alerts_shape pid now pos zs _ q hq).1)
    cases hz with
    | head =>
      dsimp only [zoneDetectionStep]
      split
      · rename_i hcond
        obtain ⟨hin, hnotocc⟩ := bool_and_elim hcond
        have hnotin : z.zoneId ∉ occ := by simpa using hnotocc
        constructor
        · rw [zoneStep_occ_notin pid now pos zs _ _ hnd0]
          simp [hin]
        · rw [List.filter_cons]
          rw [if_pos (by simp)]
          rw [List.length_cons, filter_id_len_zero _ _ htailz]
          rw [if_pos ⟨hin, hnotin⟩]
      · rename_i hcond
        split
        · rename_i hcond2
          obtain ⟨hout, _⟩ := bool_and_elim hcond2
          have hnotcontain : z.containsPoint pos = false := by
            simpa using hout
          constructor
          · rw [zoneStep_occ_notin pid now pos zs _ _ hnd0,
              hocc.mem_erase_iff]
            simp [hnotcontain]
          · rw [filter_id_len_zero _ _ htailz2]
            rw [if_neg (fun hc => by rw [hnotcontain] at hc; cases hc.1)]
        · rename_i hcond2
          have hco : z.containsPoint pos = occ.contains z.zoneId := by
            cases hc : z.containsPoint pos <;>
              cases ho : occ.contains z.zoneId
            · rfl
            · exact absurd (by rw [hc, ho]; rfl) hcond2
            · exact absurd (by rw [hc, ho]; rfl) hcond
            · rfl
          have hmemco : z.zoneId ∈ occ ↔ z.containsPoint pos = true := by
            rw [hco]
            exact List.elem_iff.symm
          constructor
          · rw [zoneStep_occ_notin pid now pos zs _ _ hnd0]
            exact hmemco
          · rw [filter_id_len_zero _ _ htailz3]
            rw [if_neg (fun hc => hc.2 (hmemco.2 hc.1))]
    | tail _ hztail =>
      have hzid : z.zoneId ≠ z0.zoneId := by
        intro hcon
        exact hnd0 (hcon ▸ List.mem_map.2 ⟨z, hztail, rfl⟩)
      dsimp only [zoneDetectionStep]
      split
      · rename_i hcond
        have hnodup2 : (occ ++ [z0.zoneId]).Nodup := by
          obtain ⟨_, hnotocc⟩ := bool_and_elim hcond
          simp [List.nodup_append, hocc]
          simpa using hnotocc
        obtain ⟨hres1, hres2⟩ := ih _ hndtail hnodup2 hztail
        constructor
        · exact hres1
        · rw [List.filter_cons]
          rw [if_neg (by simp [Ne.symm hzid])]
          rw [hres2]
          by_cases hmem : z.zoneId ∈ occ
          · rw [if_neg, if_neg] <;> simp [hmem]
          · by_cases hc : z.containsPoint pos = true
            · rw [if_pos, if_pos] <;> simp [hmem, hc, hzid]
            · rw [if_neg, if_neg] <;> simp [hc]
      · split
        · obtain ⟨hres1, hres2⟩ := ih _ hndtail (hocc.erase _) hztail
          constructor
          · exact hres1
          · rw [hres2]
            by_cases hmem : z.zoneId ∈ occ
            · by_cases hc : z.containsPoint pos = true
              · rw [if_neg, if_neg] <;>
                  simp [hmem, List.mem_erase_of_ne hzid]
              · rw [if_neg, if_neg] <;> simp [hc]
            · by_cases hc : z.containsPoint pos = true
              · rw [if_pos, if_pos] <;>
                  simp [hmem, hc, List.mem_erase_of_ne hzid]
              · rw [if_neg, if_neg] <;> simp [hc]
        · exact ih _ hndtail hocc hztail

/-- Convert a proposition-to-Bool bridge into a `decide` equation. -/
theorem decide_eq_bool {p : Prop} [Decidable p] {b : Bool}
    (h : p ↔ b = true) : decide p = b := by
  cases b
  · simp [h]
  · simp [h]

/-- Every alert produced over a whole run is an entry alert. -/
theorem zoneRun_alerts_shape (zones : List RestrictedZone) (pid : Nat)
    (now : ℚ) :
    ∀ (ps : List (Int × Int)) (occ : List Nat),
      ∀ q ∈ (zoneDetectionRun zones pid now ps occ).2,
        q.2.alertType = SurvAlertType.restrictedZoneEntry := by
  intro ps
  induction ps with
  | nil => intro occ q hq; cases hq
  | cons pos rest ih =>
    intro occ q hq
    dsimp only [zoneDetectionRun] at hq
    rcases List.mem_append.1 hq with h | h
    · exact (zoneStep_alerts_shape pid now pos zones occ q h).2
    · exact ih _ q h

/-- Over a run of positions, the entry alerts for one zone are exactly the
false→true transitions of its containment trace, and the occupancy marker
always mirrors the containment at the last processed position. -/
theorem zoneRun_spec (zones : List RestrictedZone) (pid : Nat) (now : ℚ)
    (hnd : (zones.map RestrictedZone.zoneId).Nodup)
    (z : RestrictedZone) (hz : z ∈ zones) :
    ∀ (ps : List (Int × Int)) (occ : List Nat), occ.Nodup →
      ((zoneDetectionRun zones pid now ps occ).2.filter
          (fun q => decide (q.1 = z.zoneId))).length =
        risingEdges (decide (z.zoneId ∈ occ))
          (ps.map (fun p => z.containsPoint p)) ∧
      (z.zoneId ∈ (zoneDetectionRun zones pid now ps occ).1 ↔
        (ps.map (fun p => z.containsPoint p)).getLastD
          (decide (z.zoneId ∈ occ)) = true) := by
  intro ps
  induction ps with
  | nil =>
    intro occ _
    constructor
    · rfl
    · simp [zoneDetectionRun, risingEdges]
  | cons pos rest ih =>
    intro occ hocc
    have hstep := zoneStep_spec pid now pos zones occ hnd hocc z hz
    have hnodup' := zoneStep_occ_nodup pid now pos zones occ hocc
    obtain ⟨ihc, ihm⟩ := ih (zoneDetectionStep pid now pos zones occ).1 hnodup'
    have hdec : decide (z.zoneId ∈ (zoneDetectionStep pid now pos zones occ).1) =
        z.containsPoint pos := decide_eq_bool hstep.1
    constructor
    · dsimp only [zoneDetectionRun]
      rw [List.filter_append, List.length_append, hstep.2, ihc, hdec]
      dsimp only [List.map_cons, risingEdges]
      congr 1
      cases hcp : z.containsPoint pos <;> by_cases h2 : z.zoneId ∈ occ <;>
        simp [hcp, h2]
    · dsimp only [zoneDetectionRun]
      rw [ihm, hdec]
      dsimp only [List.map_cons]
      rw [List.getLastD_cons]

/-- C5: for every tracked person and every zone in the configured (nodup)
zone list, one RESTRICTED_ZONE_ENTRY alert is emitted exactly per
outside→inside transition of the position trace (no repeat alerts while the
person stays inside); every emitted alert is an entry alert (exits emit
nothing); and after the run the zone is marked occupied iff the last
position is inside — in particular the marker is cleared on exit. -/
theorem zone_entry_alert_discipline (zones : List RestrictedZone)
    (hnd : (zones.map RestrictedZone.zoneId).Nodup)
    (z : RestrictedZone) (hz : z ∈ zones) (pid : Nat) (now : ℚ)
    (positions : List (Int × Int)) :
    (((zoneDetectionRun zones pid now positions []).2.filter
        (fun q => decide (q.1 = z.zoneId))).length =
      risingEdges false (positions.map (fun p => z.containsPoint p))) ∧
    (∀ q ∈ (zoneDetectionRun zones pid now positions []).2,
      q.2.alertType = SurvAlertType.restrictedZoneEntry) ∧
    (z.zoneId ∈ (zoneDetectionRun zones pid now positions []).1 ↔
      (positions.map (fun p => z.containsPoint p)).getLastD false = true) := by
  obtain ⟨h1, h2⟩ := zoneRun_spec zones pid now hnd z hz positions [] List.nodup_nil
  refine ⟨?_, ?_, ?_⟩
  · simpa using h1
  · exact zoneRun_alerts_shape zones pid now positions []
  · simpa using h2

/-- The default demonstration zone of `add_default_zones`: the rectangle
[(50,50),(200,50),(200,150),(50,150)], with the external OpenCV
point-in-polygon test instantiated (boundary inclusive) for this
rectangle. -/
def rectZone : RestrictedZone :=
  { zoneId := 1
    name := "Restricted Area 1"
    pipTest := fun p => decide (50 ≤ p.1 ∧ p.1 ≤ 200 ∧ 50 ≤ p.2 ∧ p.2 ≤ 150)
    alertType := .restrictedZoneEntry
    enabled := true }

/-- Witness for C5: a track entering the default rectangle, staying inside,
leaving and re-entering fires exactly 2 entry alerts, matching the two
rising edges of its containment trace. -/
theorem zone_entry_alert_discipline_witness :
    (((zoneDetectionRun [rectZone] 1 0
        [(10, 10), (100, 100), (120, 120), (10, 10), (100, 100)] []).2.filter
          (fun q => decide (q.1 = rectZone.zoneId))).length =
      risingEdges false
        ([(10, 10), (100, 100), (120, 120), (10, 10), (100, 100)].map
          (fun p => rectZone.containsPoint p))) ∧
    risingEdges false
        ([(10, 10), (100, 100), (120, 120), (10, 10), (100, 100)].map
          (fun p => rectZone.containsPoint p)) = 2 := by
  refine ⟨(zone_entry_alert_discipline [rectZone] (by simp) rectZone
    (List.mem_singleton.2 rfl) 1 0
    [(10, 10), (100, 100), (120, 120), (10, 10), (100, 100)]).1, ?_⟩
  decide

/-- Fall-alert confidence of `analyze_person`: `min(0.9, angle / 90)`. -/
def fallConfidence (angle : ℚ) : ℚ := min (9/10) (angle / 90)

/-- Fall-detection block of `SurveillanceAnalyzer.analyze_person`, given the
latest recorded posture angle of the track (`posture_angle` from
`extract_pose_features`, an external arctangent computation): emit a
FALL_DETECTED alert when the absolute angle exceeds 45°. -/
def fallDetectionStep (postureAngle : ℚ) (pid : Nat) (pos : Int × Int)
    (now : ℚ) : Option SurvAlert :=
  let angle := |postureAngle|
  if angle > 45 then
    some { alertType := .fallDetected, timestamp := now, personId := pid,
           location := pos, confidence := fallConfidence angle,
           description := "Possible fall detected" }
  else none

/-- C9 counterexample: the fall-alert confidence is capped at 0.9, so it is
constant — not increasing — between 81° and 90°: angles 82° and 88° both
yield confidence 9/10. -/
theorem fall_confidence_counterexample :
    ((45 : ℚ) < 82 ∧ (82 : ℚ) < 88 ∧ (88 : ℚ) < 90) ∧
    (fallDetectionStep 82 0 (0, 0) 0).map SurvAlert.confidence = some (9/10) ∧
    (fallDetectionStep 88 0 (0, 0) 0).map SurvAlert.confidence = some (9/10) ∧
    ¬ fallConfidence 82 < fallConfidence 88 := by
  decide

/-- C9 amended: a FALL_DETECTED alert is emitted exactly when the absolute
posture angle exceeds the 45° threshold, with confidence
`min(0.9, angle/90)` — proportional to the angle but capped at 0.9, hence
nondecreasing everywhere and strictly increasing only below 81°. -/
theorem fall_detection_amended (a : ℚ) (pid : Nat) (pos : Int × Int)
    (now : ℚ) :
    ((fallDetectionStep a pid pos now).isSome ↔ |a| > 45) ∧
    (∀ al, fallDetectionStep a pid pos now = some al →
      al.alertType = SurvAlertType.fallDetected ∧
      al.confidence = fallConfidence |a|) ∧
    (∀ b c : ℚ, b ≤ c → fallConfidence b ≤ fallConfidence c) ∧
    (∀ b c : ℚ, 45 < b → b < c → c ≤ 81 →
      fallConfidence b < fallConfidence c) := by
  refine ⟨?_, ?_, ?_, ?_⟩
  · by_cases h : |a| > 45 <;> simp [fallDetectionStep, h]
  · intro al hal
    dsimp only [fallDetectionStep] at hal
    split at hal
    · injection hal with h
      subst h
      exact ⟨rfl, rfl⟩
    · cases hal
  · intro b c hbc
    exact min_le_min (le_refl _) (by linarith)
  · intro b c _ hbc hc81
    rw [fallConfidence, fallConfidence, min_eq_right (by linarith),
      min_eq_right (by linarith)]
    linarith

/-- Witness for the amended C9: a 60° posture angle fires the alert, and the
confidence strictly grows from 50° to 60°. -/
theorem fall_detection_amended_witness :
    (fallDetectionStep 60 0 (0, 0) 0).isSome ∧
    fallConfidence 50 < fallConfidence 60 :=
  ⟨(fall_detection_amended 60 0 (0, 0) 0).1.mpr (by decide),
   (fall_detection_amended 50 0 (0, 0) 0).2.2.2 50 60 (by norm_num)
     (by norm_num) (by norm_num)⟩

/-! Embedding of `utils/alert_system.py`. -/

/-- Dataclass `AlertConfig` with its defaults. -/
structure AlertConfig where
  logPath : String := "logs/alerts_log.csv"
  enableSound : Bool := true
  enableEmail : Bool := false
  enableFileLogging : Bool := true
  maxAlertsInMemory : Nat := 100
  alertCooldownSeconds : ℚ := 5
  deriving DecidableEq, Repr

/-- The `alert_data` dictionary built by `trigger_alert` (the formatted
timestamp string is modelled by the timestamp itself; `person_id or 'N/A'`
and the coordinate string are modelled by options). -/
structure AlertRecord where
  timestamp : ℚ
  alertType : String
  personId : Option Int
  coordinates : Option (Int × Int)
  confidence : ℚ
  description : String
  sessionId : String
  resolved : Bool
  deriving DecidableEq, Repr

/-- In-memory state of `AlertSystem` (the CSV/sound/email side effects are
external sinks with no bearing on the claims). -/
structure AlertSystem where
  config : AlertConfig
  alertHistory : List AlertRecord
  lastAlertTimes : List (String × ℚ)
  totalAlerts : Nat
  alertsByType : List (String × Nat)
  sessionStart : ℚ
  deriving DecidableEq, Repr

/-- Fresh alert system (`AlertSystem.__init__`). -/
def AlertSystem.init (config : AlertConfig) (now : ℚ) : AlertSystem :=
  { config := config, alertHistory := [], lastAlertTimes := [],
    totalAlerts := 0, alertsByType := [], sessionStart := now }

/-- Python truthiness of the optional person id: `None` and `0` are falsy. -/
def pidTruthy : Option Int → Bool
  | none => false
  | some p => p != 0

/-- Cooldown key: `f"{alert_type}_{person_id}" if person_id else
alert_type`. -/
def cooldownKey (alertType : String) (personId : Option Int) : String :=
  if pidTruthy personId then alertType ++ "_" ++ toString (personId.getD 0)
  else alertType

/-- `dict.get(key, default)` on the last-alert-times mapping. -/
def lookupTimeD (l : List (String × ℚ)) (k : String) (d : ℚ) : ℚ :=
  ((l.find? (fun p => p.1 == k)).map Prod.snd).getD d

/-- `AlertSystem._is_alert_cooled_down`. -/
def AlertSystem.isAlertCooledDown (s : AlertSystem) (alertType : String)
    (personId : Option Int) (now : ℚ) : Bool :=
  decide (now - lookupTimeD s.lastAlertTimes (cooldownKey alertType personId) 0 <
    s.config.alertCooldownSeconds)

/-- `dict[key] = value` preserving insertion order. -/
def setKey : List (String × ℚ) → String → ℚ → List (String × ℚ)
  | [], k, v => [(k, v)]
  | p :: rest, k, v =>
    if p.1 = k then (k, v) :: rest else p :: setKey rest k v

/-- The `alerts_by_type` counter bump. -/
def bumpCount : List (String × Nat) → String → List (String × Nat)
  | [], k => [(k, 1)]
  | p :: rest, k =>
    if p.1 = k then (p.1, p.2 + 1) :: rest else p :: bumpCount rest k

/-- Default description:
`f"{alert_type.replace('_', ' ').title()} detected"` for the
underscore-separated lowercase alert types used by the system. -/
def defaultDescription (alertType : String) : String :=
  String.intercalate " "
    (((alertType.replace "_" " ").splitOn " ").map
      (fun w => w.toLower.capitalize)) ++ " detected"

/-- `AlertSystem.trigger_alert`: suppress entirely while cooled down
(returning `False` before any state is touched), otherwise record the alert,
bump the statistics, stamp the cooldown key and return `True`. -/
def AlertSystem.triggerAlert (s : AlertSystem) (alertType : String)
    (personId : Option Int) (coords : Option (Int × Int)) (confidence : ℚ)
    (description : String) (sessionId : String) (now : ℚ) :
    AlertSystem × Bool :=
  if s.isAlertCooledDown alertType personId now then (s, false)
  else
    let alertData : AlertRecord :=
      { timestamp := now
        alertType := alertType
        personId := if pidTruthy personId then personId else none
        coordinates := coords
        confidence := confidence
        description :=
          if description = "" then defaultDescription alertType else description
        sessionId := sessionId
        resolved := false }
    let hist0 := s.alertHistory ++ [alertData]
    let hist :=
      if hist0.length > s.config.maxAlertsInMemory then
        hist0.drop (hist0.length - s.config.maxAlertsInMemory)
      else hist0
    ({ s with
        alertHistory := hist
        totalAlerts := s.totalAlerts + 1
        alertsByType := bumpCount s.alertsByType alertType
        lastAlertTimes := setKey s.lastAlertTimes (cooldownKey alertType personId) now },
     true)

/-- Looking up a key just stored yields the stored time. -/
theorem lookupTimeD_setKey (l : List (String × ℚ)) (k : String) (v d : ℚ) :
    lookupTimeD (setKey l k v) k d = v := by
  induction l with
  | nil => simp [setKey, lookupTimeD]
  | cons p rest ih =>
    dsimp only [setKey]
    split
    · simp [lookupTimeD]
    · rename_i hne
      rw [lookupTimeD, List.find?_cons_of_neg _ (by simpa using hne)]
      exact ih

/-- C6: two `trigger_alert` calls for the same (type, person) pair within
`alert_cooldown_seconds` deliver exactly one alert — the first returns True
and records it, the second returns False and leaves the whole system state
(history, statistics, cooldown stamps) unchanged — and a third call after
the cooldown window has elapsed is delivered and returns True. -/
theorem alert_cooldown_exactly_once (s : AlertSystem) (ty : String)
    (pid : Option Int) (c1 c2 c3 : Option (Int × Int)) (conf1 conf2 conf3 : ℚ)
    (d1 d2 d3 sid1 sid2 sid3 : String) (t1 t2 t3 : ℚ)
    (h1 : s.isAlertCooledDown ty pid t1 = false)
    (h2 : t2 - t1 < s.config.alertCooldownSeconds)
    (h3 : s.config.alertCooldownSeconds ≤ t3 - t1) :
    (s.triggerAlert ty pid c1 conf1 d1 sid1 t1).2 = true ∧
    (s.triggerAlert ty pid c1 conf1 d1 sid1 t1).1.totalAlerts =
      s.totalAlerts + 1 ∧
    ((s.triggerAlert ty pid c1 conf1 d1 sid1 t1).1.triggerAlert ty pid c2
      conf2 d2 sid2 t2).2 = false ∧
    ((s.triggerAlert ty pid c1 conf1 d1 sid1 t1).1.triggerAlert ty pid c2
      conf2 d2 sid2 t2).1 = (s.triggerAlert ty pid c1 conf1 d1 sid1 t1).1 ∧
    (((s.triggerAlert ty pid c1 conf1 d1 sid1 t1).1.triggerAlert ty pid c2
      conf2 d2 sid2 t2).1.triggerAlert ty pid c3 conf3 d3 sid3 t3).2 = true ∧
    (((s.triggerAlert ty pid c1 conf1 d1 sid1 t1).1.triggerAlert ty pid c2
      conf2 d2 sid2 t2).1.triggerAlert ty pid c3 conf3 d3 sid3 t3).1.totalAlerts =
      s.totalAlerts + 2 := by
  set s1 := (s.triggerAlert ty pid c1 conf1 d1 sid1 t1).1 with hs1
  have r1 : (s.triggerAlert ty pid c1 conf1 d1 sid1 t1).2 = true := by
    simp only [AlertSystem.triggerAlert, h1, Bool.false_eq_true, if_false]
  have hlast : s1.lastAlertTimes = setKey s.lastAlertTimes (cooldownKey ty pid) t1 := by
    rw [hs1]
    simp only [AlertSystem.triggerAlert, h1, Bool.false_eq_true, if_false]
  have hconf : s1.config = s.config := by
    rw [hs1]
    simp only [AlertSystem.triggerAlert, h1, Bool.false_eq_true, if_false]
  have htot : s1.totalAlerts = s.totalAlerts + 1 := by
    rw [hs1]
    simp only [AlertSystem.triggerAlert, h1, Bool.false_eq_true, if_false]
  have hc2 : s1.isAlertCooledDown ty pid t2 = true := by
    rw [AlertSystem.isAlertCooledDown, hlast, hconf, lookupTimeD_setKey]
    simpa using h2
  have e2 : s1.triggerAlert ty pid c2 conf2 d2 sid2 t2 = (s1, false) := by
    simp only [AlertSystem.triggerAlert, hc2, if_true]
  have hc3 : s1.isAlertCooledDown ty pid t3 = false := by
    rw [AlertSystem.isAlertCooledDown, hlast, hconf, lookupTimeD_setKey]
    simp only [decide_eq_false_iff_not]
    exact not_lt.2 h3
  have r3 : (s1.triggerAlert ty pid c3 conf3 d3 sid3 t3).2 = true := by
    simp only [AlertSystem.triggerAlert, hc3, Bool.false_eq_true, if_false]
  have t3tot : (s1.triggerAlert ty pid c3 conf3 d3 sid3 t3).1.totalAlerts =
      s1.totalAlerts + 1 := by
    simp only [AlertSystem.triggerAlert, hc3, Bool.false_eq_true, if_false]
  refine ⟨r1, htot, by rw [e2], by rw [e2], ?_, ?_⟩
  · rw [e2]
    exact r3
  · rw [e2, t3tot, htot]

/-- Witness for C6: on a fresh system with default config (cooldown 5), a
call at t=10 is delivered and a repeat at t=12 is suppressed. -/
theorem alert_cooldown_exactly_once_witness :
    ((AlertSystem.init {} 0).triggerAlert "fall_detected" (some 1) none
      (8/10) "" "default" 10).2 = true ∧
    (((AlertSystem.init {} 0).triggerAlert "fall_detected" (some 1) none
      (8/10) "" "default" 10).1.triggerAlert "fall_detected" (some 1) none
      (8/10) "" "default" 12).2 = false := by
  obtain ⟨r1, _, r2, _, _, _⟩ := alert_cooldown_exactly_once
    (AlertSystem.init {} 0) "fall_detected" (some 1) none none none
    (8/10) (8/10) (8/10) "" "" "" "default" "default" "default" 10 12 16
    (by decide) (by decide) (by decide)
  exact ⟨r1, r2⟩

/-- A delivered alert suppresses a second call whose (type, person) pair
maps to the same cooldown key inside the window. -/
theorem trigger_then_suppressed (s : AlertSystem) (ty : String)
    (pidA pidB : Option Int) (hkey : cooldownKey ty pidB = cooldownKey ty pidA)
    (c1 c2 : Option (Int × Int)) (conf1 conf2 : ℚ) (d1 d2 sid1 sid2 : String)
    (t1 t2 : ℚ) (h1 : s.isAlertCooledDown ty pidA t1 = false)
    (h2 : t2 - t1 < s.config.alertCooldownSeconds) :
    ((s.triggerAlert ty pidA c1 conf1 d1 sid1 t1).1.triggerAlert ty pidB c2
      conf2 d2 sid2 t2).2 = false := by
  set s1 := (s.triggerAlert ty pidA c1 conf1 d1 sid1 t1).1 with hs1
  have hlast : s1.lastAlertTimes = setKey s.lastAlertTimes (cooldownKey ty pidA) t1 := by
    rw [hs1]
    simp only [AlertSystem.triggerAlert, h1, Bool.false_eq_true, if_false]
  have hconf : s1.config = s.config := by
    rw [hs1]
    simp only [AlertSystem.triggerAlert, h1, Bool.false_eq_true, if_false]
  have hc2 : s1.isAlertCooledDown ty pidB t2 = true := by
    rw [AlertSystem.isAlertCooledDown, hlast, hconf, hkey, lookupTimeD_setKey]
    simpa using h2
  simp only [AlertSystem.triggerAlert, hc2, if_true]

/-- C10: with person id `None` or `0` the cooldown key degenerates to the
alert type alone (Python truthiness), so an alert of a type with person 0
and one of the same type with no person share one cooldown window and
mutually suppress each other; only nonzero person ids get the
`"type_person"` key separation. -/
theorem cooldown_key_degeneracy (ty : String) (s : AlertSystem)
    (c1 c2 : Option (Int × Int)) (conf1 conf2 : ℚ) (d1 d2 sid1 sid2 : String)
    (t1 t2 : ℚ) :
    cooldownKey ty (some 0) = ty ∧
    cooldownKey ty none = ty ∧
    (∀ p : Int, p ≠ 0 → cooldownKey ty (some p) = ty ++ "_" ++ toString p) ∧
    (s.isAlertCooledDown ty (some 0) t1 = false →
      t2 - t1 < s.config.alertCooldownSeconds →
      ((s.triggerAlert ty (some 0) c1 conf1 d1 sid1 t1).1.triggerAlert ty none
        c2 conf2 d2 sid2 t2).2 = false) ∧
    (s.isAlertCooledDown ty none t1 = false →
      t2 - t1 < s.config.alertCooldownSeconds →
      ((s.triggerAlert ty none c1 conf1 d1 sid1 t1).1.triggerAlert ty (some 0)
        c2 conf2 d2 sid2 t2).2 = false) := by
  refine ⟨rfl, rfl, ?_, ?_, ?_⟩
  · intro p hp
    simp [cooldownKey, pidTruthy, hp]
  · intro h1 h2
    exact trigger_then_suppressed s ty (some 0) none rfl c1 c2 conf1 conf2
      d1 d2 sid1 sid2 t1 t2 h1 h2
  · intro h1 h2
    exact trigger_then_suppressed s ty none (some 0) rfl c1 c2 conf1 conf2
      d1 d2 sid1 sid2 t1 t2 h1 h2

/-- Witness for C10: delivering with person id 0 at t=10 suppresses a
person-less alert of the same type at t=12 on a fresh default system. -/
theorem cooldown_key_degeneracy_witness :
    (((AlertSystem.init {} 0).triggerAlert "fall_detected" (some 0) none
      (8/10) "" "default" 10).1.triggerAlert "fall_detected" none none
      (8/10) "" "default" 12).2 = false :=
  (cooldown_key_degeneracy "fall_detected" (AlertSystem.init {} 0) none none
    (8/10) (8/10) "" "" "default" "default" 10 12).2.2.2.1 (by decide)
    (by decide)

end OpenCVProject
